import Mathlib

/-!
Shallow embedding of the Dialogue Supervisor of the
`ai-operation-microservice` repository
(`code/model/persona_supervisor.py`, `code/model/conversation_state.py`,
`code/utils/persona_profile.py`) and proofs about the behaviour its
specification claims.

External collaborators (the document-search backend, the two persona
strategies, the probabilistic LLM classifiers and the random generator
used for menu sampling) are modelled as explicit function parameters,
as the spec itself treats them as external interfaces.  Every function
that calls the search collaborator additionally returns the list of
queries it issued, so that call counts are observable.

Python regular expressions are modelled by dedicated character-level
matchers; each matcher carries a comment naming the regex it embeds.
Character classes such as `\w` and `\s` are modelled over the ASCII and
Thai ranges that occur in this codebase.
-/

namespace RestbizSup

/-! ## Character classes -/

/-- Python `\s` over the whitespace characters used in this codebase. -/
def isWsChar (c : Char) : Bool :=
  c = ' ' || c = '\t' || c = '\n' || c = '\r' || c = '\x0b' || c = '\x0c'

/-- ASCII decimal digit, Python `\d` (the repo's inputs use ASCII digits). -/
def isDigitChar (c : Char) : Bool :=
  '0' ≤ c && c ≤ '9'

/-- Thai characters of the `฀-๿` block. -/
def isThaiBlock (c : Char) : Bool :=
  0x0E00 ≤ c.val && c.val ≤ 0x0E7F

/-- Thai characters of the `[ก-๙]` range (used by the ending-normalization
lookarounds). -/
def isThaiKoToNine (c : Char) : Bool :=
  0x0E01 ≤ c.val && c.val ≤ 0x0E59

/-- Thai characters counted as word characters by Python's `\w`
(`str.isalnum`): consonants, the spacing vowels, `ๆ`, and Thai digits,
excluding the combining marks (general category Mn) and symbols. -/
def isThaiWordChar (c : Char) : Bool :=
  (0x0E01 ≤ c.val && c.val ≤ 0x0E2E) || c.val = 0x0E30 ||
  c.val = 0x0E32 || c.val = 0x0E33 ||
  (0x0E40 ≤ c.val && c.val ≤ 0x0E46) ||
  (0x0E50 ≤ c.val && c.val ≤ 0x0E59)

/-- Python `\w` over the ASCII and Thai ranges occurring in this codebase. -/
def isWordChar (c : Char) : Bool :=
  ('a' ≤ c && c ≤ 'z') || ('A' ≤ c && c ≤ 'Z') || isDigitChar c || c = '_' ||
  isThaiWordChar c

/-- `str.lower` over ASCII (Thai characters are case-less). -/
def lowerChar (c : Char) : Char :=
  if 'A' ≤ c && c ≤ 'Z' then Char.ofNat (c.val.toNat + 32) else c

def lowerList (l : List Char) : List Char := l.map lowerChar

def lowerStr (s : String) : String := ⟨lowerList s.data⟩

/-! ## Basic list-of-characters utilities -/

/-- `str.strip()` (over the modelled whitespace class). -/
def stripList (l : List Char) : List Char :=
  ((l.dropWhile isWsChar).reverse.dropWhile isWsChar).reverse

def strip (s : String) : String := ⟨stripList s.data⟩

/-- `str.rstrip()`. -/
def rstrip (s : String) : String :=
  ⟨(s.data.reverse.dropWhile isWsChar).reverse⟩

theorem dropWhile_len_le (p : Char → Bool) (l : List Char) :
    (l.dropWhile p).length ≤ l.length := by
  induction l with
  | nil => simp [List.dropWhile]
  | cons c rest ih =>
    simp only [List.dropWhile]
    split
    · exact Nat.le_succ_of_le ih
    · simp

/-- Helper of `foldClassToSpace`: `prevIn` records whether the previous
character was in the class (so a run contributes one space). -/
def foldClassAux (p : Char → Bool) (prevIn : Bool) : List Char → List Char
  | [] => []
  | c :: rest =>
    if p c then
      (if prevIn then [] else [' ']) ++ foldClassAux p true rest
    else c :: foldClassAux p false rest

/-- Replace every maximal run of characters satisfying `p` by a single
space (the shape of `re.sub(r"[...]+", " ", t)`). -/
def foldClassToSpace (p : Char → Bool) (l : List Char) : List Char :=
  foldClassAux p false l

/-- Helper of `collapseElong`: `prev`/`count` track the current run; a
run's characters are emitted only while its length is still ≤ 2. -/
def collapseElongAux (prev : Option Char) (count : Nat) : List Char → List Char
  | [] => []
  | c :: rest =>
    if some c = prev then
      (if count ≥ 2 then [] else [c]) ++ collapseElongAux (some c) (count + 1) rest
    else c :: collapseElongAux (some c) 1 rest

/-- `re.sub(r"(.)\1{2,}", r"\1\1", t)`: every maximal run of ≥ 3 equal
characters becomes exactly two copies. -/
def collapseElong (l : List Char) : List Char :=
  collapseElongAux none 0 l

/-- Characters folded to a space by `_normalize_for_intent`
(`re.sub(r"[!！?？。,，]+", " ", t)`). -/
def isIntentPunct (c : Char) : Bool :=
  c = '!' || c = '！' || c = '?' || c = '？' || c = '。' || c = ',' || c = '，'

/-- `re.sub(r"\s+", " ", t)`. -/
def collapseWsList (l : List Char) : List Char :=
  foldClassToSpace isWsChar l

def collapseWs (s : String) : String := ⟨collapseWsList s.data⟩

/-- `PersonaSupervisor._normalize_for_intent`. -/
def normalizeForIntent (s : String) : String :=
  let t := lowerList (stripList s.data)
  let t := foldClassToSpace isIntentPunct t
  let t := stripList (collapseWsList t)
  let t := collapseElong t
  ⟨stripList t⟩

/-- `PersonaSupervisor._normalize_confirm_text`: after
`_normalize_for_intent`, `re.sub(r"[^\w฀-๿\s]", " ", t)` then
whitespace collapse and strip. -/
def normalizeConfirmText (s : String) : String :=
  let t := (normalizeForIntent s).data
  let t := t.map (fun c => if isWordChar c || isThaiBlock c || isWsChar c then c else ' ')
  ⟨stripList (collapseWsList t)⟩

/-- Substring containment (Python `needle in hay`), `needle` nonempty in
all uses. -/
def containsList (hay needle : List Char) : Bool :=
  match hay with
  | [] => needle.isPrefixOf ([] : List Char)
  | _ :: rest => needle.isPrefixOf hay || containsList rest needle

def strContains (hay needle : String) : Bool :=
  containsList hay.data needle.data

/-- `any(tok in t for tok in tokens)` for nonempty tokens. -/
def hasAnyToken (tokens : List String) (t : String) : Bool :=
  tokens.any (fun tok => tok ≠ "" && strContains t tok)

/-- `none` stands for a string edge (start/end), which is a non-word
position. -/
def wordishOpt : Option Char → Bool
  | none => false
  | some c => isWordChar c

/-- Occurrence of `pat` in `hay` with a word boundary (`\b`) on both
sides.  Patterns passed here begin and end with word characters. -/
def occursWithBoundaries (hay pat : List Char) : Bool :=
  go none hay
where
  go (prev : Option Char) : List Char → Bool
    | [] => false
    | c :: rest =>
      (pat.isPrefixOf (c :: rest) && !wordishOpt prev &&
        !wordishOpt (((c :: rest).drop pat.length).head?)) ||
      go (some c) rest

/-- Occurrence of `pat` in `hay` with a word boundary (`\b`) only after
the match (patterns end with word characters). -/
def occursWithEndBoundary (hay pat : List Char) : Bool :=
  go hay
where
  go : List Char → Bool
    | [] => false
    | c :: rest =>
      (pat.isPrefixOf (c :: rest) &&
        !wordishOpt (((c :: rest).drop pat.length).head?)) ||
      go rest

/-- Anchored occurrence of `pat` at the start of `l` with a word boundary
after it, computed for a pattern whose LAST character may be a word or a
non-word character (`\b` holds iff exactly one side is a word position). -/
def prefixWithEndBoundary (pat : String) (l : List Char) : Bool :=
  pat.data.isPrefixOf l &&
  (wordishOpt pat.data.getLast? != wordishOpt ((l.drop pat.data.length).head?))

/-- Lexicographic code-point comparison, as Python compares strings. -/
def charListLe : List Char → List Char → Bool
  | [], _ => true
  | _ :: _, [] => false
  | a :: as', b :: bs' =>
    if a.val < b.val then true
    else if b.val < a.val then false
    else charListLe as' bs'

def strLe (a b : String) : Bool := charListLe a.data b.data

/-! ## Deterministic detectors (the compiled regexes of `PersonaSupervisor`) -/

/-- `_TH_LAUGH_5_RE = ^\s*5{3,}\s*$` (used with `re.match`). -/
def thLaugh5 (s : String) : Bool :=
  let l := s.data.dropWhile isWsChar
  let fives := l.takeWhile (· = '5')
  (fives.length ≥ 3) && (l.dropWhile (· = '5')).all isWsChar

/-- `_LIKELY_SELECTION_RE` (used with `re.match`): anchored, one or more
characters from the class digit, whitespace, comma, slash, hyphen. -/
def likelySelection (s : String) : Bool :=
  let cls := fun c => isDigitChar c || isWsChar c || c = ',' || c = '/' || c = '-'
  (!s.data.isEmpty) && s.data.all cls

/-- `_QUESTION_MARKERS_RE` searched in `t`: `\?`, `\bไหม\b`, or plain
containment of the other alternatives. -/
def questionMarkers (t : String) : Bool :=
  strContains t "?" ||
  occursWithBoundaries t.data "ไหม".data ||
  hasAnyToken ["หรือไม่", "หรือเปล่า", "ยังไง", "ทำไง", "อย่างไร", "ได้ไหม",
    "ควร", "ต้อง", "คืออะไร"] t

/-- `_LEGAL_SIGNAL_RE` searched in `t` (all alternatives are plain
substrings; `ภพ\.?20` yields the two variants, `พ\.ร\.บ` is literal). -/
def legalSignal (t : String) : Bool :=
  hasAnyToken ["ใบอนุญาต", "จดทะเบียน", "ทะเบียนพาณิชย์", "ภาษี", "vat",
    "ภพ.20", "ภพ20", "สรรพากร", "เทศบาล", "สำนักงานเขต", "สุขาภิบาล", "กรม",
    "ค่าธรรมเนียม", "เอกสาร", "ขั้นตอน", "บทลงโทษ", "ประกาศ", "พ.ร.บ",
    "ประกันสังคม", "กองทุน", "เปิดร้าน", "ขึ้นทะเบียน"] t

/-- `_NOISE_ONLY_RE = ^(?:[อ-ฮะ-์]+|[a-z]+|[!?.]+)$` with `re.IGNORECASE`,
used with `re.match` on lowered text.  `[อ-ฮ]` is the code-point range
U+0E2D–U+0E2E and `[ะ-์]` is U+0E30–U+0E4C. -/
def noiseOnly (t : String) : Bool :=
  let l := t.data
  (!l.isEmpty) &&
  (l.all (fun c => (0x0E2D ≤ c.val && c.val ≤ 0x0E2E) ||
      (0x0E30 ≤ c.val && c.val ≤ 0x0E4C)) ||
   l.all (fun c => ('a' ≤ c && c ≤ 'z') || ('A' ≤ c && c ≤ 'Z')) ||
   l.all (fun c => c = '!' || c = '?' || c = '.'))

/-- Anchored `stem` followed by zero or more repetitions of `lastC`
followed by `\b` (the shape `hi+`, `hello+`, ... where the regex repeats
the final letter). -/
def stemElongBoundary (stemInit : String) (lastC : Char) (l : List Char) : Bool :=
  (stemInit.data ++ [lastC]).isPrefixOf l &&
  !wordishOpt (((l.drop (stemInit.data.length + 1)).dropWhile (· = lastC)).head?)

/-- `_EN_GREETING_RE = ^\s*(hi+|hello+|hey+|yo+)\b`. -/
def enGreeting (t : String) : Bool :=
  let l := t.data.dropWhile isWsChar
  stemElongBoundary "h" 'i' l || stemElongBoundary "hell" 'o' l ||
  stemElongBoundary "he" 'y' l || stemElongBoundary "y" 'o' l

/-- `_EN_GOOD_TIME_RE = ^\s*good\s+(morning|afternoon|evening|night)\b`. -/
def enGoodTime (t : String) : Bool :=
  let l := t.data.dropWhile isWsChar
  "good".data.isPrefixOf l &&
  (let r := l.drop 4
   (!(r.takeWhile isWsChar).isEmpty) &&
   (let r2 := r.dropWhile isWsChar
    ["morning", "afternoon", "evening", "night"].any (fun w =>
      w.data.isPrefixOf r2 && !wordishOpt ((r2.drop w.data.length).head?))))

/-- `_TH_SAWASDEE_FUZZY_RE = ^\s*สว[^\s]{0,6}ดี`. -/
def thSawasdee (t : String) : Bool :=
  let l := t.data.dropWhile isWsChar
  "สว".data.isPrefixOf l &&
  (let m := l.drop 2
   (List.range 7).any (fun k =>
     decide (k ≤ m.length) && (m.take k).all (fun c => !isWsChar c) &&
     "ดี".data.isPrefixOf (m.drop k)))

/-- `_TH_WATDEE_RE = ^\s*หวัดดี`. -/
def thWatdee (t : String) : Bool :=
  "หวัดดี".data.isPrefixOf (t.data.dropWhile isWsChar)

/-- `_TH_DEE_RE = ^\s*ดี(?:ครับ|คับ|ค่ะ|คะ|งับ|จ้า|จ้ะ|ค่า)?` — the optional
group never affects whether a match exists. -/
def thDee (t : String) : Bool :=
  "ดี".data.isPrefixOf (t.data.dropWhile isWsChar)

/-- `_THANKS_RE = (ขอบคุณ|ขอบใจ|thx|thanks)\b` searched in `t`. -/
def thanksSearch (t : String) : Bool :=
  ["ขอบคุณ", "ขอบใจ", "thx", "thanks"].any (fun p =>
    occursWithEndBoundary t.data p.data)

/-- `_SMALLTALK_RE` searched in the raw input (plain alternatives). -/
def smalltalkSearch (s : String) : Bool :=
  hasAnyToken ["ทำอะไรอยู่", "ทำไรอยู่", "ว่างไหม", "อยู่ไหม", "เป็นไงบ้าง",
    "เป็นไง", "กินข้าวยัง", "สบายดีไหม", "สบายดีปะ", "โอเคไหม", "เหนื่อยไหม"] s

/-- `PersonaSupervisor._looks_like_greeting_or_thanks`. -/
def looksLikeGreetingOrThanks (s : String) : Bool :=
  let raw := strip s
  if raw = "" then true
  else if thLaugh5 raw then true
  else if likelySelection raw then false
  else
    let t := normalizeForIntent raw
    if thanksSearch t then true
    else if t.data.length ≤ 2 then true
    else if questionMarkers t then false
    else if legalSignal t then false
    else if enGreeting t || enGoodTime t then true
    else if thWatdee t || thSawasdee t then true
    else if thDee t && !questionMarkers t then true
    else if t.data.length ≤ 14 && noiseOnly t then true
    else false

/-- `PersonaSupervisor._looks_like_legal_question`. -/
def looksLikeLegalQuestion (s : String) : Bool :=
  let t := normalizeForIntent s
  if t = "" then false
  else if legalSignal t then true
  else questionMarkers t && t.data.length ≥ 6

/-- `PersonaSupervisor._is_noise`. -/
def isNoise (s : String) : Bool :=
  let t := strip s
  if t = "" then false
  else if thLaugh5 t then true
  else if likelySelection t then false
  else if t.data.length ≤ 2 then true
  else noiseOnly (lowerStr t) && !looksLikeLegalQuestion t

/-- The `(โหมด|mode|persona|บุคลิก)` alternatives of `_MODE_STATUS_Q`. -/
def modeWords : List String := ["โหมด", "mode", "persona", "บุคลิก"]

/-- First branch of `_MODE_STATUS_Q`:
`(ตอนนี้|ตอนนี้เรา|ตอนนี้บอท|บอทตอนนี้|อยู่|เป็น)\s*.*(โหมด|mode|persona|บุคลิก).*`
searched anywhere: some A-word occurrence is later followed by some
B-word occurrence. -/
def modeStatusBranch1 (l : List Char) : Bool :=
  go l
where
  go : List Char → Bool
    | [] => false
    | c :: rest =>
      (["ตอนนี้", "ตอนนี้เรา", "ตอนนี้บอท", "บอทตอนนี้", "อยู่", "เป็น"].any (fun a =>
        a.data.isPrefixOf (c :: rest) &&
        modeWords.any (fun b => containsList ((c :: rest).drop a.data.length) b.data))) ||
      go rest

/-- Second branch of `_MODE_STATUS_Q`:
`^(โหมด|mode|persona|บุคลิก)\s*(อะไร|ไหน|ไร|หยัง|ไหนอะ|ไหนครับ|ไหนคะ)?\s*\??$`. -/
def modeStatusBranch2 (l : List Char) : Bool :=
  let tailOk := fun (r : List Char) =>
    let r2 := r.dropWhile isWsChar
    r2.isEmpty || r2 = ['?']
  modeWords.any (fun b =>
    b.data.isPrefixOf l &&
    (let r := (l.drop b.data.length).dropWhile isWsChar
     tailOk r ||
     ["อะไร", "ไหน", "ไร", "หยัง", "ไหนอะ", "ไหนครับ", "ไหนคะ"].any (fun q =>
       q.data.isPrefixOf r && tailOk (r.drop q.data.length))))

/-- `PersonaSupervisor._looks_like_mode_status_query` (the `re.IGNORECASE`
flag is modelled by lowering the text; every alternative is lowercase). -/
def looksLikeModeStatusQuery (s : String) : Bool :=
  let t := strip s
  if t = "" then false
  else if !(strContains t "โหมด" || strContains (lowerStr t) "mode" ||
            strContains (lowerStr t) "persona" || strContains t "บุคลิก") then false
  else
    let tl := (lowerStr t).data
    modeStatusBranch1 tl || modeStatusBranch2 tl

def switchVerbs : List String :=
  ["เปลี่ยน", "สลับ", "ปรับ", "ขอเปลี่ยน", "ขอสลับ", "ขอปรับ", "change", "ไป"]

def switchMarkers : List String :=
  ["โหมด", "mode", "persona", "บุคลิก", "บอท", "bot", "ตัว"]

/-- `PersonaSupervisor._looks_like_switch_without_target`; the inner
negative guard is `\b(academic|practical)\b|วิชาการ|ละเอียด|สั้น|กระชับ`. -/
def looksLikeSwitchWithoutTarget (s : String) : Bool :=
  let t := lowerStr (strip s)
  if t = "" then false
  else
    ((hasAnyToken switchVerbs t && hasAnyToken switchMarkers t) &&
      !(occursWithBoundaries t.data "academic".data ||
        occursWithBoundaries t.data "practical".data ||
        hasAnyToken ["วิชาการ", "ละเอียด", "สั้น", "กระชับ"] t)) ||
    (["เปลี่ยน", "สลับ", "ปรับ"].any (fun v =>
      v.data.isPrefixOf t.data && (t.data.drop v.data.length).all isWsChar))

def targetAcademicHints : List String :=
  ["ละเอียด", "เชิงลึก", "วิชาการ", "ตามกฎหมาย", "อ้างอิงข้อกฎหมาย",
   "อธิบายละเอียด", "ขอแบบละเอียด", "ละเอียดทั้งหมด", "ขอแบบละเอียดทั้งหมด",
   "เอาแบบละเอียดทั้งหมด", "ขยายความ", "ลงรายละเอียด", "ละเอียดขึ้น"]

def targetPracticalHints : List String :=
  ["สั้น", "สั้นๆ", "กระชับ", "สรุป", "สรุปสั้น", "เอาแบบสั้น", "เอาแบบสรุป",
   "เช็คลิสต์", "เป็นข้อๆ", "เร็วๆ"]

/-- `_STYLE_LIKELY_RE` searched in the raw input. -/
def styleLikely (s : String) : Bool :=
  hasAnyToken ["ขอ", "ช่วย", "รบกวน", "เอา", "อยากได้", "ขอให้", "ช่วยอธิบาย",
    "ขยายความ", "ลงรายละเอียด", "ละเอียดขึ้น", "เชิงลึก", "สรุป", "สั้นๆ",
    "กระชับ"] s

/-- `PersonaSupervisor._infer_user_style_request_det`
(returns `(wants_short, wants_long)`). -/
def inferUserStyleRequestDet (s : String) : Bool × Bool :=
  let t := normalizeForIntent s
  if t = "" then (false, false)
  else
    let wantsShort := hasAnyToken targetPracticalHints t
    let wantsLong := hasAnyToken targetAcademicHints t
    if wantsShort && wantsLong then (false, false)
    else (wantsShort, wantsLong)

/-! ## Data model (`code/model/conversation_state.py`) -/

/-- One entry of the visible chat history. -/
structure Msg where
  role : String
  content : String
deriving Repr, DecidableEq

/-- One retrieved passage (`{content, metadata}`); metadata is the
key/value map read from the search backend. -/
structure Doc where
  content : String
  metadata : List (String × String)
deriving Repr, DecidableEq

/-- `context["pending_slot"] = {key, options, allow_multi}`. -/
structure PendingSlot where
  key : String
  options : List String
  allowMulti : Bool
deriving Repr, DecidableEq

/-- The supervisor-owned keys of the open `context` map, as explicit
typed fields.  A `none` / `false` / `0` value models an absent key. -/
structure Ctx where
  pendingSlot : Option PendingSlot := none
  pendingPersona : Option String := none
  pendingReplayUserInput : Option String := none
  awaitingPersonaConfirmation : Bool := false
  awaitingPersonaPick : Bool := false
  confirmTries : Option Nat := none
  academicFlowStage : Option String := none
  topicPool : Option (List (String × Nat)) := none
  lastMenuTopics : Option (List String) := none
  lastTopic : Option String := none
  greetMenuTurns : Nat := 0
  mainMenuShown : Bool := false
  didGreet : Bool := false
  autoReturnAfterAcademicDone : Bool := false
  switchOriginPersona : Option String := none
  lastRetrievalQueryCtx : Option String := none
  personaIdCtx : Option String := none
deriving Repr, DecidableEq

/-- `ConversationState` (the fields the supervisor reads or writes; the
persona-profile knob dictionary is pure configuration data untouched by
any claim and is represented by the `personaIdCtx` mirror only). -/
structure ConversationState where
  sessionId : String := ""
  personaId : String := "practical"
  messages : List Msg := []
  context : Ctx := {}
  currentDocs : List Doc := []
  lastRetrievalQuery : Option String := none
  lastAction : Option String := none
deriving Repr, DecidableEq

/-! ## Persona id normalization (`code/utils/persona_profile.py`) -/

/-- The `alias_map` tail of `normalize_persona_id`, applied to the
lowered, stripped id. -/
def personaAlias (p : String) : String :=
  if p = "academic" || p = "practical" then p
  else if p = "acad" then "academic"
  else if p = "prac" then "practical"
  else if p = "expert" then "academic"
  else if p = "balanced" then "practical"
  else if p = "minimal" then "practical"
  else if p = "วิชาการ" then "academic"
  else if p = "เชิงลึก" then "academic"
  else if p = "ละเอียด" then "academic"
  else if p = "ทางการ" then "academic"
  else if p = "สั้น" then "practical"
  else if p = "กระชับ" then "practical"
  else if p = "เร็ว" then "practical"
  else if p = "โหมดละเอียด" then "academic"
  else if p = "โหมดสั้น" then "practical"
  else "practical"

/-- `normalize_persona_id`. -/
def normalizePersonaId (pid : String) : String :=
  if pid = "" then "practical"
  else personaAlias (lowerStr (strip pid))

/-! ## Confirmation classifier -/

def yesCore : List String :=
  ["ใช่", "ช่าย", "ไช่", "ใข่", "ยืนยัน", "คอนเฟิร์ม", "confirm", "ถูกต้อง",
   "โอเค", "ตกลง", "ได้", "ได้เลย", "เอา", "เอาเลย", "จัดไป", "ไปเลย", "yes",
   "yeah", "yep", "yup", "ok", "okay", "เยส", "เยป", "เย้ป", "งับ", "ค้าบ",
   "คั้บ", "เออ", "อือ", "อืม"]

def noCore : List String :=
  ["ไม่", "ไม่เอา", "ไม่ต้อง", "ยังไม่", "ยกเลิก", "ช่างมัน", "no", "nope",
   "cancel", "ไม่เปลี่ยน", "ไม่สลับ"]

/-- Result of `_classify_yes_no_det` (the unused confidence field is
dropped; `method` is kept because the confirmation handler branches on
it). -/
structure YesNoDet where
  yes : Bool
  no : Bool
  method : String
deriving Repr, DecidableEq

/-- `PersonaSupervisor._classify_yes_no_det`. -/
def classifyYesNoDet (userText : String) : YesNoDet :=
  let t := normalizeConfirmText userText
  if t = "" then ⟨false, false, "empty"⟩
  else if t = "1" then ⟨true, false, "num_yes"⟩
  else if t = "2" then ⟨false, true, "num_no"⟩
  else if t = "ครับ" || t = "คับ" || t = "ค่ะ" || t = "คะ" then
    ⟨false, false, "filler_only"⟩
  else
    let yes := hasAnyToken yesCore t
    let no := hasAnyToken noCore t
    if yes && no then ⟨false, false, "conflict"⟩
    else if yes then ⟨true, false, "det_contains"⟩
    else if no then ⟨false, true, "det_contains"⟩
    else ⟨false, false, "unclear"⟩

/-! ## External collaborators -/

/-- JSON verdict of the probabilistic yes/no confirmation call. -/
structure LlmYesNo where
  yes : Bool
  no : Bool
  confidence : Rat
deriving Repr, DecidableEq

/-- JSON verdict of the probabilistic style call. -/
structure LlmStyle where
  wantsLong : Bool
  wantsShort : Bool
  confidence : Rat
deriving Repr, DecidableEq

/-- The external collaborators of §6 of the spec, plus the pseudo-random
menu draw.  `retriever` is the document-search collaborator
(`retriever.invoke`); `academic`/`practical` are the two persona
strategies (`.handle(state, text, force_intake, _internal=True)` and
`.handle(state, text, _internal=True)`); the three `llm*` fields model
the probabilistic classifier calls, `none` standing for a failed or
unparsable response; `pick` abstracts `rng.choices` in the weighted
no-replacement sample: at draw number `i` the element of index
`pick i % n` among the `n` remaining candidates is taken (every weight
is ≥ 1, so the real generator can produce any such sequence). -/
structure Collab where
  retriever : String → List Doc
  academic : ConversationState → String → Bool → ConversationState × String
  practical : ConversationState → String → ConversationState × String
  llmConfirm : String → Option LlmYesNo
  llmStyle : String → Option LlmStyle
  llmGreetPrefixCall : String → String → String → Bool → Option String
  pick : Nat → Nat

/-- `conf ≥ num/den`, computed exactly on the rational's numerator and
denominator (`den > 0` for a `Rat`). -/
def confAtLeast (conf : Rat) (num den : Nat) : Bool :=
  conf.num * (den : Int) ≥ (num : Int) * (conf.den : Int)

/-- `PersonaSupervisor._infer_user_style_request_hybrid`
(returns `(wants_short, wants_long)`; the `method`/`confidence` fields of
the Python result are not read by any caller). -/
def inferUserStyleRequestHybrid (c : Collab) (s : String) : Bool × Bool :=
  if !styleLikely s then
    let det := inferUserStyleRequestDet s
    if det.1 || det.2 then det else (false, false)
  else
    let res := c.llmStyle s
    let wantsLong := match res with
      | some r => r.wantsLong && confAtLeast r.confidence 55 100
      | none => false
    let wantsShort := match res with
      | some r => r.wantsShort && confAtLeast r.confidence 55 100
      | none => false
    let (wantsLong, wantsShort) :=
      if wantsLong && wantsShort then (false, false) else (wantsLong, wantsShort)
    if wantsLong || wantsShort then (wantsShort, wantsLong)
    else
      let det := inferUserStyleRequestDet s
      if det.1 || det.2 then det else (false, false)

/-! ## Intent classification -/

inductive Intent where
  | confirmYesno
  | explicitSwitch
  | modeStatus
  | acadIntakeReply
  | legalNew
  | greeting
  | noise
  | unknown
deriving Repr, DecidableEq

/-- The `meta` dictionary attached to a classified intent. -/
structure IntentMeta where
  kind : Option String := none
  wantsShort : Bool := false
  wantsLong : Bool := false
deriving Repr, DecidableEq

/-- `PersonaSupervisor._ACADEMIC_LOCK_STAGES` membership through
`_is_academic_intake_active`. -/
def isAcademicIntakeActive (st : ConversationState) : Bool :=
  match st.context.academicFlowStage with
  | none => false
  | some stage =>
    let stage := strip stage
    stage = "awaiting_slots" || stage = "awaiting_sections"

/-- `PersonaSupervisor._classify_intent`. -/
def classifyIntent (c : Collab) (st : ConversationState) (userInput : String) :
    Intent × IntentMeta :=
  if isAcademicIntakeActive st then (.acadIntakeReply, {})
  else if st.context.awaitingPersonaConfirmation then (.confirmYesno, {})
  else if looksLikeSwitchWithoutTarget userInput then
    (.explicitSwitch, { kind := some "no_target" })
  else if looksLikeModeStatusQuery userInput then (.modeStatus, {})
  else
    let style := inferUserStyleRequestHybrid c userInput
    if style.2 || style.1 then
      (.explicitSwitch, { kind := some "style", wantsShort := style.1, wantsLong := style.2 })
    else if smalltalkSearch userInput || looksLikeGreetingOrThanks userInput then
      (.greeting, {})
    else if looksLikeLegalQuestion userInput then (.legalNew, {})
    else if isNoise userInput then (.noise, {})
    else (.unknown, {})

/-! ## Message append helpers (`_add_user` / `_add_assistant`) -/

/-- `PersonaSupervisor._add_user`. -/
def addUser (st : ConversationState) (text : String) : ConversationState :=
  if text = "" then st
  else
    match st.messages.getLast? with
    | some m =>
      if m.role = "user" && m.content = text then st
      else { st with messages := st.messages ++ [⟨"user", text⟩] }
    | none => { st with messages := st.messages ++ [⟨"user", text⟩] }

/-- `PersonaSupervisor._add_assistant`. -/
def addAssistant (st : ConversationState) (text : String) : ConversationState :=
  if text = "" then st
  else
    match st.messages.getLast? with
    | some m =>
      if m.role = "assistant" && m.content = text then st
      else { st with messages := st.messages ++ [⟨"assistant", text⟩] }
    | none => { st with messages := st.messages ++ [⟨"assistant", text⟩] }

/-! ## Thai ending normalization (`_normalize_male`) -/

/-- Try to match `ครับ\s*/\s*ค่ะ` (with `a` then `b`) at the head of `l`;
returns the number of characters consumed. -/
def tryDualPair (a b : String) (l : List Char) : Option Nat :=
  if a.data.isPrefixOf l then
    let n1 := a.data.length
    let r := l.drop n1
    let ws1 := (r.takeWhile isWsChar).length
    match (r.drop ws1).head? with
    | some '/' =>
      let r2 := r.drop (ws1 + 1)
      let ws2 := (r2.takeWhile isWsChar).length
      if b.data.isPrefixOf (r2.drop ws2) then
        some (n1 + ws1 + 1 + ws2 + b.data.length)
      else none
    | _ => none
  else none

/-- Helper of `dualEndingSub`: a `skip > 0` means the scan position is
still inside an already-replaced match (`re.sub` continues after each
match and does not rescan it). -/
def dualSubAux (skip : Nat) : List Char → List Char
  | [] => []
  | c :: rest =>
    if skip > 0 then dualSubAux (skip - 1) rest
    else
      match tryDualPair "ครับ" "ค่ะ" (c :: rest) with
      | some n => "ครับ".data ++ dualSubAux (n - 1) rest
      | none =>
        match tryDualPair "ค่ะ" "ครับ" (c :: rest) with
        | some n => "ครับ".data ++ dualSubAux (n - 1) rest
        | none => c :: dualSubAux 0 rest

/-- `_DUAL_ENDING_RE.sub("ครับ", t)`: replace every
`ครับ\s*/\s*ค่ะ` or `ค่ะ\s*/\s*ครับ` occurrence, left to right. -/
def dualEndingSub (l : List Char) : List Char :=
  dualSubAux 0 l

/-- Helper of `femaleEndingSub`: `prev` is the character preceding the
scan position in the original text and `skip` works as in
`dualSubAux`. -/
def femaleSubAux (prev : Option Char) (skip : Nat) : List Char → List Char
  | [] => []
  | c :: rest =>
    if skip > 0 then femaleSubAux (some c) (skip - 1) rest
    else if "ค่ะ".data.isPrefixOf (c :: rest) &&
       !(prev.map isThaiKoToNine).getD false &&
       !(((c :: rest).drop 3).head?.map isThaiKoToNine).getD false then
      "ครับ".data ++ femaleSubAux (some c) 2 rest
    else
      c :: femaleSubAux (some c) 0 rest

/-- `_FEMALE_ENDING_TOKEN_RE.sub("ครับ", t)`: replace `ค่ะ` when not
surrounded by `[ก-๙]` characters. -/
def femaleEndingSub (l : List Char) : List Char :=
  femaleSubAux none 0 l

/-- `PersonaSupervisor._normalize_male`. -/
def normalizeMale (text : String) : String :=
  let t := strip text
  if t = "" then t
  else ⟨femaleEndingSub (dualEndingSub t.data)⟩

/-! ## Retrieval gate -/

/-- `PersonaSupervisor._tokenize_loose`: split `_normalize_for_intent`
output on the class whitespace, slash, comma, hyphen, en dash, em dash,
vertical bar, and keep tokens of length ≥ 2. -/
def isTokenSplitChar (c : Char) : Bool :=
  isWsChar c || c = '/' || c = ',' || c = '-' || c = '–' || c = '—' || c = '|'

/-- Helper of `splitTokens`: `cur` is the reversed token being read. -/
def splitTokensAux (cur : List Char) : List Char → List (List Char)
  | [] => if cur.isEmpty then [] else [cur.reverse]
  | c :: rest =>
    if isTokenSplitChar c then
      (if cur.isEmpty then [] else [cur.reverse]) ++ splitTokensAux [] rest
    else splitTokensAux (c :: cur) rest

def splitTokens (l : List Char) : List (List Char) :=
  splitTokensAux [] l

def tokenizeLoose (s : String) : List String :=
  ((splitTokens (normalizeForIntent s).data).filter (fun t => t.length ≥ 2)).map
    (fun t => (⟨t⟩ : String))

/-- Distinct elements of a token list (Python `set` semantics; only the
cardinalities of intersections and unions are consumed). -/
def distinctTokens : List String → List String
  | [] => []
  | t :: rest =>
    if (distinctTokens rest).contains t then distinctTokens rest
    else t :: distinctTokens rest

/-- The token-set intersection and union sizes of
`PersonaSupervisor._topic_overlap_ratio` (`|sa ∩ sb|`, `|sa ∪ sb|`). -/
def topicOverlapCounts (a b : String) : Nat × Nat :=
  let sa := distinctTokens (tokenizeLoose a)
  let sb := distinctTokens (tokenizeLoose b)
  ((sa.filter (fun t => sb.contains t)).length,
   sa.length + (sb.filter (fun t => !sa.contains t)).length)

/-- `_topic_overlap_ratio(a, b) < 0.22` computed exactly by
cross-multiplication (`inter / union < 22/100 ↔ 100*inter < 22*union`);
the ratio is 0.0 when either token set is empty.  The double-precision
division of the source agrees with the exact comparison at these
magnitudes. -/
def overlapBelow22 (a b : String) : Bool :=
  let sa := distinctTokens (tokenizeLoose a)
  let sb := distinctTokens (tokenizeLoose b)
  if sa.isEmpty || sb.isEmpty then true
  else 100 * (topicOverlapCounts a b).1 < 22 * (topicOverlapCounts a b).2

/-- The `last_q` computation of `_should_retrieve_new_for_practical`:
`((state.last_retrieval_query or "") or context.get("last_retrieval_query") or "").strip()`. -/
def gateLastQuery (st : ConversationState) : String :=
  strip (match st.lastRetrievalQuery with
    | some s => if s = "" then (st.context.lastRetrievalQueryCtx.getD "") else s
    | none => st.context.lastRetrievalQueryCtx.getD "")

/-- `PersonaSupervisor._should_retrieve_new_for_practical`. -/
def shouldRetrieveNewForPractical (st : ConversationState) (userInput : String) :
    Bool :=
  let q := strip userInput
  if q = "" then false
  else if st.currentDocs.isEmpty then true
  else
    let lastQ := gateLastQuery st
    if lastQ = "" then true
    else if lastQ = q then false
    else overlapBelow22 lastQ q

/-- `conf.RETRIEVAL_TOP_K` (environment default 20). -/
def retrievalTopK : Nat := 20

/-- `PersonaSupervisor._ensure_practical_retrieval_for_legal`; the extra
`List String` component is the list of queries sent to the search
collaborator. -/
def ensurePracticalRetrievalForLegal (c : Collab) (st : ConversationState)
    (userInput : String) : ConversationState × List String :=
  let q := strip userInput
  if q = "" then (st, [])
  else if !shouldRetrieveNewForPractical st q then (st, [])
  else
    let docs := c.retriever q
    let results := (docs.take retrievalTopK).map (fun d =>
      ({ content := (d.content.take 600), metadata := d.metadata } : Doc))
    ({ st with
        currentDocs := results
        lastRetrievalQuery := some q
        context := { st.context with lastRetrievalQueryCtx := some q } }, [q])

/-! ## Pending-slot resolver -/

def digitsToNat (l : List Char) : Nat :=
  l.foldl (fun acc c => acc * 10 + (c.val.toNat - 48)) 0

/-- Match `_RANGE_RE = (\d+)\s*-\s*(\d+)` anchored at the head of `l`;
returns the two numbers and the number of characters consumed. -/
def tryRangeAt (l : List Char) : Option (Nat × Nat × Nat) :=
  let d1 := l.takeWhile isDigitChar
  if d1.isEmpty then none
  else
    let r := l.drop d1.length
    let ws1 := (r.takeWhile isWsChar).length
    match (r.drop ws1).head? with
    | some '-' =>
      let r2 := r.drop (ws1 + 1)
      let ws2 := (r2.takeWhile isWsChar).length
      let d2 := (r2.drop ws2).takeWhile isDigitChar
      if d2.isEmpty then none
      else some (digitsToNat d1, digitsToNat d2,
        d1.length + ws1 + 1 + ws2 + d2.length)
    | _ => none

/-- Helper of `rangeMatches`: a positive `skip` means the scan position
is still inside an already-reported match (`finditer` continues after
the match). -/
def rangeAux (skip : Nat) : List Char → List (Nat × Nat)
  | [] => []
  | c :: rest =>
    if skip > 0 then rangeAux (skip - 1) rest
    else
      match tryRangeAt (c :: rest) with
      | some (a, b, n) => (a, b) :: rangeAux (n - 1) rest
      | none => rangeAux 0 rest

/-- `_RANGE_RE.finditer`: left-to-right, non-overlapping. -/
def rangeMatches (l : List Char) : List (Nat × Nat) :=
  rangeAux 0 l

/-- Helper of `anyNumberMatches`: the matches of `\b(\d{1,2})\b` are
exactly the maximal digit runs of length 1–2 whose neighbours are
non-word positions.  `prev` is the character before the scan position
and a positive `skip` jumps over the rest of a digit run. -/
def anyNumberScan (prev : Option Char) (skip : Nat) : List Char → List Nat
  | [] => []
  | c :: rest =>
    if skip > 0 then anyNumberScan (some c) (skip - 1) rest
    else if isDigitChar c && !wordishOpt prev then
      let run := (c :: rest).takeWhile isDigitChar
      let after := (c :: rest).drop run.length
      if run.length ≤ 2 && !wordishOpt after.head? then
        digitsToNat run :: anyNumberScan (some c) (run.length - 1) rest
      else anyNumberScan (some c) (run.length - 1) rest
    else anyNumberScan (some c) 0 rest

def anyNumberMatches (l : List Char) : List Nat :=
  anyNumberScan none 0 l

/-- Deduplication preserving the first occurrence (the `seen` loop of
`_parse_indices`). -/
def dedupNatsAux (seen : List Nat) : List Nat → List Nat
  | [] => []
  | n :: rest =>
    if seen.contains n then dedupNatsAux seen rest
    else n :: dedupNatsAux (n :: seen) rest

def dedupNats (l : List Nat) : List Nat :=
  dedupNatsAux [] l

/-- `lo..hi` inclusive (`range(lo, hi + 1)`). -/
def rangeList (lo hi : Nat) : List Nat :=
  (List.range (hi + 1 - lo)).map (· + lo)

/-- `PersonaSupervisor._parse_indices`. -/
def parseIndices (text : String) : List Nat :=
  let t := stripList text.data
  if t.isEmpty then []
  else
    let fromRanges := (rangeMatches t).foldl (fun acc ab =>
      if ab.1 = 0 || ab.2 = 0 then acc
      else acc ++ rangeList (min ab.1 ab.2) (max ab.1 ab.2)) []
    dedupNats (fromRanges ++ anyNumberMatches t)

/-- `re.search(r"(ทั้งหมด|all\b|ทุกข้อ|ทุกอย่าง)", low)`. -/
def allMarkerSearch (low : String) : Bool :=
  strContains low "ทั้งหมด" || occursWithEndBoundary low.data "all".data ||
  strContains low "ทุกข้อ" || strContains low "ทุกอย่าง"

def joinComma : List String → String
  | [] => ""
  | [x] => x
  | x :: rest => x ++ ", " ++ joinComma rest

def msgMultiOnly : String := "ตัวเลือกนี้ใช้ได้เฉพาะกรณีที่เลือกได้หลายข้อครับ"
def msgNoNumeric : String := "กรุณาตอบเป็นตัวเลขตามตัวเลือกครับ"
def msgOutOfRange : String := "เลขที่เลือกไม่อยู่ในช่วงตัวเลือกครับ"

/-- `PersonaSupervisor._map_pending_slot_reply`: returns
`(resolved value, error message)`. -/
def mapPendingSlotReply (pending : PendingSlot) (userInput : String) :
    Option String × Option String :=
  let options := pending.options
  let raw := strip userInput
  if raw = "" then (none, none)
  else
    let low := lowerStr raw
    if allMarkerSearch low then
      if pending.allowMulti && !options.isEmpty then
        (some (joinComma ((options.map strip).filter (· ≠ ""))), none)
      else (none, some msgMultiOnly)
    else
      let idxs := parseIndices raw
      let idxs :=
        if idxs.isEmpty && raw.data.all isDigitChar && raw.data.length ≥ 2 &&
           options.length ≤ 9 then
          raw.data.map (fun ch => ch.val.toNat - 48)
        else idxs
      if idxs.isEmpty then (none, some msgNoNumeric)
      else
        let valid := idxs.filter (fun i => 1 ≤ i && i ≤ options.length)
        if valid.isEmpty then (none, some msgOutOfRange)
        else if !pending.allowMulti then
          (some (strip (options.getD (valid.headD 1 - 1) "")), none)
        else
          let texts := (valid.map (fun i => strip (options.getD (i - 1) ""))).filter
            (· ≠ "")
          if texts.isEmpty then (none, some msgOutOfRange)
          else (some (joinComma texts), none)

/-- `PersonaSupervisor._has_pending_slot`. -/
def hasPendingSlot (st : ConversationState) : Bool :=
  match st.context.pendingSlot with
  | some p => !p.options.isEmpty
  | none => false

/-- `PersonaSupervisor._looks_like_pending_slot_reply`. -/
def looksLikePendingSlotReply (userInput : String) : Bool :=
  let raw := strip userInput
  if raw = "" then false
  else if thLaugh5 raw then false
  else
    let low := lowerStr raw
    if likelySelection raw then true
    else if !(anyNumberMatches low.data).isEmpty then true
    else allMarkerSearch low

/-- `PersonaSupervisor._should_route_pending_slot_now`. -/
def shouldRoutePendingSlotNow (st : ConversationState) (userInput : String) :
    Bool :=
  if !hasPendingSlot st then false
  else if strip userInput = "" then false
  else if thLaugh5 (strip userInput) then false
  else if isAcademicIntakeActive st then false
  else if st.context.awaitingPersonaConfirmation then false
  else if st.context.awaitingPersonaPick then false
  else if looksLikeSwitchWithoutTarget userInput then false
  else if looksLikeModeStatusQuery userInput then false
  else if styleLikely userInput && !likelySelection (strip userInput) &&
          (anyNumberMatches userInput.data).isEmpty then false
  else looksLikePendingSlotReply userInput

/-! ## Topic Menu Composer -/

def menuSize : Nat := 5
def poolMax : Nat := 80

/-- Drop a leading `หน่วยงาน\s*[:：]\s*` label
(`re.sub(r"^\s*หน่วยงาน\s*[:：]\s*", "", t)`). -/
def dropDeptLabel (t : List Char) : List Char :=
  let l := t.dropWhile isWsChar
  if "หน่วยงาน".data.isPrefixOf l then
    let r := (l.drop ("หน่วยงาน".data.length)).dropWhile isWsChar
    match r.head? with
    | some c =>
      if c = ':' || c = '：' then (r.drop 1).dropWhile isWsChar else t
    | none => t
  else t

/-- `PersonaSupervisor._sanitize_topic_label`. -/
def sanitizeTopicLabel (s : String) : String :=
  let t := strip s
  if t = "" then ""
  else if s.data.contains '\n' || s.data.contains '\r' then ""
  else
    let t := strip (collapseWs t)
    if t = "-" || t = "—" || t = "–" || t = "N/A" || t = "n/a" || t = "NA" ||
       t = "na" then ""
    else if t.data.length < 3 then ""
    else if t.data.length > 64 then ""
    else ⟨stripList (dropDeptLabel t.data)⟩

/-- `_ORGISH_RE = ^(กรม|สำนักงาน|สำนัก|เทศบาล|อบต\.?|อบจ\.?|สำนักงานเขต)\b`
(searched, but anchored). -/
def orgish (label : String) : Bool :=
  ["กรม", "สำนักงาน", "สำนัก", "เทศบาล", "อบต.", "อบต", "อบจ.", "อบจ",
   "สำนักงานเขต"].any (fun p => prefixWithEndBoundary p label.data)

/-- `PersonaSupervisor._topic_kind_weight`. -/
def topicKindWeight (label sourceKey : String) : Nat :=
  let k := lowerStr (strip sourceKey)
  let l := strip label
  if k = "license_type" || k = "ใบอนุญาต" then 5
  else if k = "operation_topic" || k = "หัวข้อการดำเนินการย่อย" ||
          k = "operation_subtopic" || k = "sub_operation_topic" ||
          k = "operation_topic_sub" || k = "subtopic" then 4
  else if k = "operation_by_department" || k = "operation_action" ||
          k = "การดำเนินการ ตามหน่วยงาน" || k = "การดำเนินการตามหน่วยงาน" ||
          k = "action_by_department" || k = "operation_process" then 4
  else if k = "department" || k = "หน่วยงาน" then
    if orgish l then 1 else 2
  else 2

/-- `dict.get` over the metadata map. -/
def mdGet (md : List (String × String)) (k : String) : Option String :=
  (md.find? (fun kv => kv.1 = k)).map (·.2)

/-- One `_add(v, source_key)` step of `_collect_topic_freq_from_docs`;
the frequency table is an insertion-ordered association list, as a
Python dict is. -/
def freqAdd (freq : List (String × Nat)) (label : String) (w : Nat) :
    List (String × Nat) :=
  if freq.any (fun kv => kv.1 = label) then
    freq.map (fun kv => if kv.1 = label then (kv.1, kv.2 + w) else kv)
  else freq ++ [(label, w)]

def addLabel (freq : List (String × Nat)) (v : Option String)
    (sourceKey : String) : List (String × Nat) :=
  match v with
  | none => freq
  | some v0 =>
    let s := sanitizeTopicLabel v0
    if s = "" then freq else freqAdd freq s (topicKindWeight s sourceKey)

def licenseKeys : List String := ["license_type", "ใบอนุญาต"]
def opByDeptKeys : List String :=
  ["operation_by_department", "operation_action", "action_by_department",
   "operation_process", "การดำเนินการ ตามหน่วยงาน", "การดำเนินการตามหน่วยงาน"]
def opSubKeys : List String :=
  ["operation_subtopic", "sub_operation_topic", "operation_topic_sub",
   "subtopic", "หัวข้อการดำเนินการย่อย"]
def opTopicKeys : List String := ["operation_topic", "หัวข้อการดำเนินการย่อย"]
def deptKeys : List String := ["department", "หน่วยงาน"]

/-- `PersonaSupervisor._collect_topic_freq_from_docs`. -/
def collectTopicFreqFromDocs (docs : List Doc) : List (String × Nat) :=
  docs.foldl (fun freq d =>
    let step := fun (f : List (String × Nat)) (ks : List String) =>
      ks.foldl (fun f k => addLabel f (mdGet d.metadata k) k) f
    step (step (step (step (step freq licenseKeys) opByDeptKeys) opSubKeys)
      opTopicKeys) deptKeys) []

/-- `sorted(merged.items(), key=lambda x: (-x[1], x[0]))`. -/
def poolLe (x y : String × Nat) : Bool :=
  y.2 < x.2 || (x.2 = y.2 && strLe x.1 y.1)

/-- Stable insertion sort (Python `sorted` is stable; the keys here are
distinct labels, so any correct sort produces the same list). -/
def insertSorted (le : String × Nat → String × Nat → Bool) (x : String × Nat) :
    List (String × Nat) → List (String × Nat)
  | [] => [x]
  | y :: rest => if le x y then x :: y :: rest else y :: insertSorted le x rest

def sortByLe (le : String × Nat → String × Nat → Bool) :
    List (String × Nat) → List (String × Nat)
  | [] => []
  | x :: rest => insertSorted le x (sortByLe le rest)

/-- The five broad seed queries of `_build_topic_pool_from_corpus`. -/
def broadQueries : List String :=
  ["ใบอนุญาต เปิดร้านอาหาร เทศบาล สำนักงานเขต สุขาภิบาลอาหาร",
   "ภาษี VAT ภพ.20 ใบกำกับภาษี กรมสรรพากร จด VAT",
   "จดทะเบียนพาณิชย์ นิติบุคคล DBD กรมพัฒนาธุรกิจการค้า หนังสือรับรอง",
   "ประกันสังคม ขึ้นทะเบียนนายจ้าง ลูกจ้าง กองทุนเงินทดแทน",
   "ขั้นตอนการดำเนินการ เอกสารที่ต้องใช้ ค่าธรรมเนียม ระยะเวลา ช่องทางยื่นคำขอ"]

/-- The hard fallback pool used when metadata yields fewer than 10
labels. -/
def fallbackBase : List (String × Nat) :=
  [("จด VAT / ขอ ภพ.20", 10), ("ใบกำกับภาษี / ออกใบเสร็จ", 9),
   ("ขอใบอนุญาตเปิดร้านอาหาร", 9), ("สุขาภิบาลอาหาร / อาหารสะอาด", 8),
   ("จดทะเบียนพาณิชย์ / DBD", 7), ("ขึ้นทะเบียนประกันสังคมนายจ้าง", 7),
   ("กองทุนเงินทดแทน", 6), ("เอกสารที่ต้องใช้", 6), ("ค่าธรรมเนียม", 5),
   ("ขั้นตอนการดำเนินการ", 5)]

/-- `PersonaSupervisor._build_topic_pool_from_corpus`; the last component
is the list of search queries issued. -/
def buildTopicPoolFromCorpus (c : Collab) (st : ConversationState) :
    List (String × Nat) × ConversationState × List String :=
  let merged := broadQueries.foldl (fun m q =>
    (collectTopicFreqFromDocs (c.retriever q)).foldl
      (fun m kv => freqAdd m kv.1 kv.2) m) []
  let items := sortByLe poolLe merged
  let pool := items.take poolMax
  let pool :=
    if pool.length < 10 then
      fallbackBase.foldl (fun p kw =>
        if p.any (fun kv => kv.1 = kw.1) then p else p ++ [kw]) pool
    else pool
  (pool, { st with context := { st.context with topicPool := some pool } },
    broadQueries)

/-- `PersonaSupervisor._get_topic_pool`. -/
def getTopicPool (c : Collab) (st : ConversationState) :
    List (String × Nat) × ConversationState × List String :=
  match st.context.topicPool with
  | some cached => if cached.isEmpty then buildTopicPoolFromCorpus c st
                   else (cached, st, [])
  | none => buildTopicPoolFromCorpus c st

/-- `PersonaSupervisor._get_last_topic_hint`. -/
def getLastTopicHint (st : ConversationState) : String :=
  let last := strip (st.context.lastTopic.getD "")
  if last ≠ "" then last
  else
    let lastQ := strip (st.lastRetrievalQuery.getD "")
    if lastQ ≠ "" then lastQ.take 60 else ""

/-- The draw loop of `_weighted_sample_no_replace`.  The flattened
weights of the source only bias `rng.choices`; since every flattened
weight is ≥ 1, the draw can land on any remaining element, which the
oracle `pickFn` abstracts (index `pickFn ctr % n` among the `n`
remaining). -/
def weightedSampleCore (pickFn : Nat → Nat) :
    Nat → List String → Nat → List String × Nat
  | ctr, _, 0 => ([], ctr)
  | ctr, [], _ + 1 => ([], ctr)
  | ctr, t :: ts, k + 1 =>
    let l := t :: ts
    let idx := pickFn ctr % l.length
    let x := l.getD idx ""
    let (restChosen, ctr') := weightedSampleCore pickFn (ctr + 1) (l.eraseIdx idx) k
    (x :: restChosen, ctr')

/-- `PersonaSupervisor._weighted_sample_no_replace`. -/
def weightedSampleNoReplace (pickFn : Nat → Nat) (ctr : Nat)
    (pool : List (String × Nat)) (k : Nat) : List String × Nat :=
  if pool.isEmpty || k = 0 then ([], ctr)
  else weightedSampleCore pickFn ctr (pool.map Prod.fst) k

/-- The `out` accumulation loop of `_related_topics_from_last` (append
distinct nonempty keys, stop once `need` are collected). -/
def pushDistinct (need : Nat) (acc : List String) : List String → List String
  | [] => acc
  | k :: rest =>
    let acc' := if k ≠ "" && !acc.contains k then acc ++ [k] else acc
    if acc'.length ≥ need then acc' else pushDistinct need acc' rest

/-- `PersonaSupervisor._related_topics_from_last`; the second component
is the list of search queries issued. -/
def relatedTopicsFromLast (c : Collab) (st : ConversationState) (need : Nat) :
    List String × List String :=
  if need = 0 then ([], [])
  else
    let lastQ := strip (getLastTopicHint st)
    if lastQ = "" then ([], [])
    else
      let docs := c.retriever lastQ
      let freq := collectTopicFreqFromDocs (docs.take 16)
      let items := sortByLe poolLe freq
      (pushDistinct need [] (items.map Prod.fst), [lastQ])

/-- The sanitize-and-dedupe accumulation loop of `_compose_menu_topics`. -/
def combineTopics (size : Nat) (acc : List String) : List String → List String
  | [] => acc
  | t :: rest =>
    let t2 := sanitizeTopicLabel t
    let acc' := if t2 ≠ "" && !acc.contains t2 then acc ++ [t2] else acc
    if acc'.length ≥ size then acc' else combineTopics size acc' rest

/-- `PersonaSupervisor._compose_menu_topics`; the last component is the
list of search queries issued. -/
def composeMenuTopics (c : Collab) (st : ConversationState) (size0 : Nat) :
    List String × ConversationState × List String :=
  let pr := getTopicPool c st
  let pool := pr.1
  let st1 := pr.2.1
  let size := max 1 size0
  let relatedTarget := if size ≥ 5 then 2 else 1
  let rel := relatedTopicsFromLast c st1 relatedTarget
  let related := rel.1
  let poolFresh := pool.filter (fun tw => !related.contains tw.1)
  let freshNeed := size - related.length
  let fr := weightedSampleNoReplace c.pick 0 poolFresh freshNeed
  let fresh := fr.1
  let combined := combineTopics size [] (related ++ fresh)
  let combined :=
    if combined.length < size then
      combineTopics size combined (pool.map Prod.fst)
    else combined
  let combined :=
    match st1.context.lastMenuTopics with
    | some lastMenu =>
      if lastMenu.length ≥ 3 then
        let overlap := (distinctTokens lastMenu).countP (fun x => combined.contains x)
        if overlap ≥ 4 && poolFresh.length ≥ size then
          let fr2 := weightedSampleNoReplace c.pick fr.2 poolFresh size
          let combined2 := combineTopics size [] fr2.1
          if combined2.length = size then combined2 else combined
        else combined
      else combined
    | none => combined
  (combined.take size, st1, pr.2.2 ++ rel.2)

/-- `PersonaSupervisor._format_numbered_options`. -/
def numberLines (i : Nat) : List String → List String
  | [] => []
  | o :: rest => (toString (i + 1) ++ ") " ++ o) :: numberLines (i + 1) rest

def joinNl : List String → String
  | [] => ""
  | [x] => x
  | x :: y :: rest => x ++ "\n" ++ joinNl (y :: rest)

def formatNumberedOptions (options : List String) (maxItems : Nat) : String :=
  joinNl (numberLines 0 (((options.map strip).filter (· ≠ "")).take maxItems))

def introFallbackText : String :=
  "สวัสดีครับ ผมคือ Restbiz ผู้ช่วยเรื่องกฎหมาย ใบอนุญาต และภาษีสำหรับร้านอาหารครับ อยากให้ช่วยเรื่องไหนครับ"

def ackFallbackText : String := "ได้ครับ ตอนนี้อยากให้ช่วยเรื่องไหนครับ"

/-- `PersonaSupervisor._get_prefix_llm`. -/
def greetPrefixText (c : Collab) (kind : String) (st : ConversationState)
    (includeIntro : Bool) : String :=
  let pid := normalizePersonaId st.personaId
  let lastHint := getLastTopicHint st
  let px := strip ((c.llmGreetPrefixCall kind pid lastHint includeIntro).getD "")
  let px := if px = "" then
      (if includeIntro then introFallbackText else ackFallbackText)
    else px
  normalizeMale (strip (collapseWs px))

/-- `PersonaSupervisor._render_greeting_with_menu`. -/
def renderGreetingWithMenu (c : Collab) (st : ConversationState) (kind : String)
    (menuTopics : List String) (includeIntro : Bool) : String :=
  let px := greetPrefixText c kind st includeIntro
  let menu := formatNumberedOptions menuTopics 9
  normalizeMale (strip (rstrip px ++ "\n" ++ menu))

/-- `PersonaSupervisor._handle_greeting`; the last component is the list
of search queries issued. -/
def handleGreeting (c : Collab) (st : ConversationState) (userInput : String) :
    ConversationState × String × List String :=
  let raw := strip userInput
  let t := normalizeForIntent raw
  let kind :=
    if raw = "" then "blank"
    else if thanksSearch t then "thanks"
    else if smalltalkSearch raw || thLaugh5 raw then "smalltalk"
    else "greet"
  let turns := st.context.greetMenuTurns
  let includeIntro := turns = 0
  let cm := composeMenuTopics c st menuSize
  let topics := cm.1
  let st2 := { cm.2.1 with context := { cm.2.1.context with
      pendingSlot := some ⟨"topic", topics, false⟩,
      mainMenuShown := true,
      lastMenuTopics := some topics } }
  let msg := renderGreetingWithMenu c st2 kind topics includeIntro
  let st3 := addAssistant st2 msg
  let st4 := { st3 with
      context := { st3.context with greetMenuTurns := turns + 1 },
      lastAction := some (if includeIntro then "greeting_first_menu"
        else "greeting_with_menu_refresh") }
  (st4, msg, cm.2.2)

/-! ## Persona switch protocol -/

/-- `PersonaSupervisor._sync_persona_and_profile` (the strict-profile
dictionary it also refreshes is pure per-persona configuration that no
routing decision reads; its write is represented by the `personaIdCtx`
mirror). -/
def syncPersonaAndProfile (st : ConversationState) : ConversationState :=
  let pid := normalizePersonaId st.personaId
  { st with personaId := pid,
            context := { st.context with personaIdCtx := some pid } }

/-- `PersonaSupervisor._mark_auto_return_if_practical_to_academic`. -/
def markAutoReturn (st : ConversationState) (targetPid : String) :
    ConversationState :=
  let origin := normalizePersonaId st.personaId
  let ctx := { st.context with switchOriginPersona := some origin }
  if origin = "practical" && normalizePersonaId targetPid = "academic" then
    { st with context := { ctx with autoReturnAfterAcademicDone := true } }
  else
    { st with context := { ctx with autoReturnAfterAcademicDone := false } }

/-- `PersonaSupervisor._enter_switch_confirmation`. -/
def enterSwitchConfirmation (st : ConversationState) (targetPid : String)
    (replayUserInput : String) : ConversationState × String × List String :=
  let st1 := { st with context := { st.context with
      pendingPersona := some (normalizePersonaId targetPid),
      pendingReplayUserInput := some replayUserInput,
      awaitingPersonaConfirmation := true,
      confirmTries := some 0 } }
  let st2 := markAutoReturn st1 targetPid
  let msg := normalizeMale
    ("ต้องการเปลี่ยนเป็นโหมด " ++ normalizePersonaId targetPid ++ " ใช่ไหมครับ")
  let st3 := addAssistant st2 msg
  ({ st3 with lastAction := some "persona_switch_confirm" }, msg, [])

/-- `flow.get("stage") == "done"` of `_post_route_academic_auto_return`. -/
def academicStageDone (st : ConversationState) : Bool :=
  match st.context.academicFlowStage with
  | some s => s = "done"
  | none => false

/-- The state after the auto-return trigger fires: back to the
practical persona, auto-return bookkeeping cleared (the
`auto_return_to_practical` key it also pops is written only by the
academic strategy and read by nobody). -/
def autoReturnCleared (st : ConversationState) : ConversationState :=
  let st1 := syncPersonaAndProfile { st with personaId := "practical" }
  { st1 with context := { st1.context with
      autoReturnAfterAcademicDone := false,
      switchOriginPersona := none } }

/-- Install a freshly composed topic menu as the new pending slot (the
common write of `_handle_greeting` and the auto-return hook). -/
def menuRefreshState (st : ConversationState) (topics : List String) :
    ConversationState :=
  { st with context := { st.context with
      pendingSlot := some ⟨"topic", topics, false⟩,
      mainMenuShown := true,
      lastMenuTopics := some topics } }

/-- The body of the auto-return branch: refreshed menu (ack phrase, no
intro) appended after the strategy's answer. -/
def autoReturnApply (c : Collab) (st : ConversationState) (reply : String) :
    ConversationState × String × List String :=
  let st2 := autoReturnCleared st
  let cm := composeMenuTopics c st2 menuSize
  let topics := cm.1
  let st3 := menuRefreshState cm.2.1 topics
  let follow := renderGreetingWithMenu c st3 "smalltalk" topics false
  let finalReply := normalizeMale (rstrip reply ++ "\n\n" ++ follow)
  ({ st3 with lastAction := some "academic_done_auto_return_to_practical" },
    finalReply, cm.2.2)

/-- `PersonaSupervisor._post_route_academic_auto_return`; the last
component is the list of search queries issued (for the refreshed
menu). -/
def postRouteAcademicAutoReturn (c : Collab) (st : ConversationState)
    (reply : String) : ConversationState × String × List String :=
  if st.context.autoReturnAfterAcademicDone && academicStageDone st then
    autoReturnApply c st reply
  else (st, reply, [])

/-- The corrective-reply exit of `_route_pending_slot_to_persona`: the
message is surfaced and the pending slot is left untouched. -/
def slotInvalidReply (st : ConversationState) (e : String) :
    ConversationState × String × List String :=
  let msg := normalizeMale e
  ({ addAssistant st msg with lastAction := some "pending_slot_invalid_reply" },
    msg, [])

/-- The slot consumption of `_route_pending_slot_to_persona`: remember
the chosen topic, then remove `pending_slot` (before any dispatch). -/
def consumedSlotState (st : ConversationState) (pending : PendingSlot)
    (mapped : String) : ConversationState :=
  let st1 :=
    if pending.key = "topic" then
      { st with context := { st.context with lastTopic := some (strip mapped) } }
    else st
  { st1 with context := { st1.context with pendingSlot := none } }

/-- The academic dispatch of a resolved slot value (internal
re-dispatch followed by the auto-return check). -/
def academicSlotDispatch (c : Collab) (st : ConversationState) (mapped : String) :
    ConversationState × String × List String :=
  let ar := c.academic st mapped false
  let pr := postRouteAcademicAutoReturn c ar.1 ar.2
  let reply := normalizeMale pr.2.1
  (addAssistant pr.1 reply, reply, pr.2.2)

/-- The practical dispatch of a resolved slot value. -/
def practicalSlotDispatch (c : Collab) (st : ConversationState) (mapped : String) :
    ConversationState × String × List String :=
  let ar := c.practical st mapped
  let reply := normalizeMale ar.2
  (addAssistant ar.1 reply, reply, [])

/-- `PersonaSupervisor._route_pending_slot_to_persona`; the last
component is the list of search queries issued. -/
def routePendingSlotToPersona (c : Collab) (st : ConversationState)
    (userInput : String) : ConversationState × String × List String :=
  let pending := st.context.pendingSlot.getD ⟨"", [], false⟩
  let me := mapPendingSlotReply pending userInput
  match me.2 with
  | some e => slotInvalidReply st e
  | none =>
    match me.1 with
    | none => slotInvalidReply st msgNoNumeric
    | some mapped =>
      if mapped = "" then slotInvalidReply st msgNoNumeric
      else if normalizePersonaId st.personaId = "academic" then
        academicSlotDispatch c (consumedSlotState st pending mapped) mapped
      else practicalSlotDispatch c (consumedSlotState st pending mapped) mapped

/-- `PersonaSupervisor._handle_persona_pick`. -/
def handlePersonaPick (st : ConversationState) (userInput : String) :
    ConversationState × String × List String :=
  let t := normalizeForIntent userInput
  let target : Option String :=
    if occursWithBoundaries t.data "1".data then some "practical"
    else if occursWithBoundaries t.data "2".data then some "academic"
    else
      let tp : Option String :=
        if hasAnyToken targetPracticalHints t || strContains t "practical" then
          some "practical"
        else none
      if hasAnyToken targetAcademicHints t || strContains t "academic" then
        match tp with
        | some p => if p ≠ "academic" then none else some "academic"
        | none => some "academic"
      else tp
  match target with
  | none =>
    let msg := normalizeMale "เลือกโหมด 1) practical 2) academic ครับ"
    (addAssistant st msg, msg, [])
  | some tgt =>
    let st1 := { st with context := { st.context with awaitingPersonaPick := false } }
    enterSwitchConfirmation st1 tgt ""

/-- The yes/no resolution step of `_handle_persona_confirmation`: the
deterministic verdict, then the probabilistic fallback when the verdict
is unclear and the input is not bare filler or empty, accepted at
confidence ≥ 0.55. -/
def resolveConfirm (c : Collab) (userInput : String) : Bool × Bool :=
  let det := classifyYesNoDet userInput
  if !det.yes && !det.no && det.method ≠ "filler_only" && det.method ≠ "empty" then
    match c.llmConfirm userInput with
    | some r =>
      if confAtLeast r.confidence 55 100 then (r.yes, r.no) else (det.yes, det.no)
    | none => (det.yes, det.no)
  else (det.yes, det.no)

/-- The replay dispatch of an accepted persona switch (the queued
user input is re-run under the new persona and the switch notice is
prepended to its answer). -/
def switchReplayDispatch (c : Collab) (st3 : ConversationState)
    (prefixMsg replayInput : String) :
    ConversationState × String × List String :=
  if st3.personaId = "academic" then
    let ar := c.academic st3 replayInput false
    let pr := postRouteAcademicAutoReturn c ar.1 ar.2
    let combined := normalizeMale (prefixMsg ++ "\n" ++ strip pr.2.1)
    let st4 := addAssistant pr.1 combined
    ({ st4 with lastAction := some "persona_switch_applied_replayed" },
      combined, pr.2.2)
  else
    let ar := c.practical st3 replayInput
    let combined := normalizeMale (prefixMsg ++ "\n" ++ strip ar.2)
    let st4 := addAssistant ar.1 combined
    ({ st4 with lastAction := some "persona_switch_applied_replayed" },
      combined, [])

/-- `PersonaSupervisor._handle_persona_confirmation`; the last component
is the list of search queries issued. -/
def handlePersonaConfirmation (c : Collab) (st : ConversationState)
    (userInput : String) : ConversationState × String × List String :=
  match st.context.pendingPersona with
  | none =>
    let st1 := { st with context :=
      { st.context with awaitingPersonaConfirmation := false } }
    let msg := normalizeMale "ระบบไม่สามารถเปลี่ยนโหมดได้ในขณะนี้ครับ"
    (addAssistant st1 msg, msg, [])
  | some targetPid =>
    let tries := st.context.confirmTries.getD 0
    let yn := resolveConfirm c userInput
    if yn.1 then
      let st1 := syncPersonaAndProfile
        { st with personaId := normalizePersonaId targetPid }
      let replayInput := st1.context.pendingReplayUserInput.getD ""
      let st2 := { st1 with context := { st1.context with
          pendingPersona := none, pendingReplayUserInput := none,
          awaitingPersonaConfirmation := false, confirmTries := none } }
      let prefixMsg := normalizeMale
        ("ตอนนี้เป็นโหมด " ++ st2.personaId ++ " แล้วครับ")
      let st3 := addAssistant st2 prefixMsg
      if strip replayInput ≠ "" then
        switchReplayDispatch c st3 prefixMsg replayInput
      else
        ({ st3 with lastAction := some "persona_switch_applied" }, prefixMsg, [])
    else if yn.2 then
      let msg := normalizeMale "โอเคครับ ใช้โหมดเดิมต่อ"
      let st1 := { st with context := { st.context with
          pendingPersona := none, pendingReplayUserInput := none,
          awaitingPersonaConfirmation := false, confirmTries := none,
          autoReturnAfterAcademicDone := false, switchOriginPersona := none } }
      ({ addAssistant st1 msg with lastAction := some "persona_switch_cancelled" },
        msg, [])
    else
      let tries1 := tries + 1
      let stT := { st with context := { st.context with confirmTries := some tries1 } }
      if tries1 ≥ 2 then
        let msg := normalizeMale
          ("ยังไม่ชัดว่าต้องการเปลี่ยนเป็นโหมด " ++ targetPid ++
           " ไหมครับ ถ้าจะเปลี่ยนพิมพ์ “ได้เลย/โอเค/ยืนยัน/จัดไป” ถ้าไม่เปลี่ยนพิมพ์ “ไม่เอา/ยกเลิก” (ตอนนี้ขอใช้โหมดเดิมไว้ก่อนครับ)")
        let st1 := { stT with context := { stT.context with
            pendingPersona := none, pendingReplayUserInput := none,
            awaitingPersonaConfirmation := false, confirmTries := none,
            autoReturnAfterAcademicDone := false, switchOriginPersona := none } }
        ({ addAssistant st1 msg with
            lastAction := some "persona_switch_unclear_cancelled" }, msg, [])
      else
        let msg := normalizeMale
          ("จะเปลี่ยนเป็นโหมด " ++ targetPid ++
           " ไหมครับ (ตอบได้เลย เช่น “ได้เลย/ยืนยัน” หรือ “ไม่เอา/ยกเลิก”)")
        (addAssistant stT msg, msg, [])

/-! ## Main router (`PersonaSupervisor.handle`) -/

/-- The turn bookkeeping `handle` performs before routing (after the
first-touch greeting check): set `did_greet`, then append the user
message when the input is non-blank. -/
def turnStart (st : ConversationState) (userInput : String) : ConversationState :=
  let st1 := if !st.context.didGreet then
      { st with context := { st.context with didGreet := true } }
    else st
  if strip userInput ≠ "" then addUser st1 userInput else st1

/-- The academic-intake-lock branch of `handle`: force the academic
persona and dispatch to the academic strategy with `force_intake`. -/
def academicLockDispatch (c : Collab) (st : ConversationState) (userInput : String) :
    ConversationState × String × List String :=
  let st1 := syncPersonaAndProfile { st with personaId := "academic" }
  let st2 := { st1 with context := { st1.context with didGreet := true } }
  let ar := c.academic st2 userInput true
  let pr := postRouteAcademicAutoReturn c ar.1 ar.2
  let reply := normalizeMale pr.2.1
  (addAssistant pr.1 reply, reply, pr.2.2)

/-- The bottom-of-router academic dispatch of `handle` (no intake
forcing), followed by the auto-return check. -/
def academicRespond (c : Collab) (st : ConversationState) (userInput : String) :
    ConversationState × String × List String :=
  let ar := c.academic st userInput false
  let pr := postRouteAcademicAutoReturn c ar.1 ar.2
  let reply := normalizeMale pr.2.1
  (addAssistant pr.1 reply, reply, pr.2.2)

/-- The bottom-of-router practical dispatch of `handle`, preceded by the
supervisor-level retrieval guarantee for legal questions. -/
def practicalRespond (c : Collab) (st : ConversationState) (userInput : String)
    (intent : Intent) : ConversationState × String × List String :=
  let er := if intent = .legalNew then
      ensurePracticalRetrievalForLegal c st userInput
    else (st, [])
  let ar := c.practical er.1 userInput
  let reply := normalizeMale ar.2
  (addAssistant ar.1 reply, reply, er.2)

/-- The classify-and-dispatch tail of `handle` (steps 4–5 of the
router's precedence order). -/
def handleClassified (c : Collab) (st : ConversationState) (userInput : String) :
    ConversationState × String × List String :=
  let im := classifyIntent c st userInput
  let intent := im.1
  let meta := im.2
  if intent = .confirmYesno then handlePersonaConfirmation c st userInput
  else if intent = .explicitSwitch && meta.kind = some "no_target" then
    let st1 := { st with context := { st.context with awaitingPersonaPick := true } }
    let msg := normalizeMale "ต้องการเปลี่ยนเป็นโหมดไหนครับ 1) practical 2) academic"
    ({ addAssistant st1 msg with lastAction := some "persona_pick_ask" }, msg, [])
  else if intent = .explicitSwitch &&
          normalizePersonaId st.personaId = "practical" && meta.wantsLong then
    enterSwitchConfirmation st "academic" userInput
  else if intent = .explicitSwitch &&
          normalizePersonaId st.personaId = "academic" && meta.wantsShort then
    enterSwitchConfirmation st "practical" userInput
  else if st.context.awaitingPersonaPick then handlePersonaPick st userInput
  else if intent = .modeStatus then
    let msg := normalizeMale
      ("ตอนนี้อยู่โหมด " ++ normalizePersonaId st.personaId ++ " ครับ")
    ({ addAssistant st msg with lastAction := some "mode_status" }, msg, [])
  else if intent = .greeting then handleGreeting c st userInput
  else if intent = .noise then handleGreeting c st ""
  else if normalizePersonaId st.personaId = "academic" then
    academicRespond c st userInput
  else practicalRespond c st userInput intent

/-- `PersonaSupervisor.handle`; the last component is the list of
queries sent to the document-search collaborator during the turn
(queries made internally by the persona strategies are those
collaborators' own). -/
def handle (c : Collab) (st0 : ConversationState) (userInput : String) :
    ConversationState × String × List String :=
  let st := syncPersonaAndProfile st0
  if !st.context.didGreet && strip userInput = "" && !isAcademicIntakeActive st then
    handleGreeting c { st with context := { st.context with didGreet := true } } ""
  else
    let st := turnStart st userInput
    if isAcademicIntakeActive st && !st.context.awaitingPersonaConfirmation then
      academicLockDispatch c st userInput
    else if shouldRoutePendingSlotNow st userInput then
      routePendingSlotToPersona c st userInput
    else handleClassified c st userInput

/-- A whole session: fold `handle` over a list of user turns, keeping
the state. -/
def runTurns (c : Collab) (st : ConversationState) (inputs : List String) :
    ConversationState :=
  inputs.foldl (fun s u => (handle c s u).1) st

/-! ## Helper lemmas about the state-passing plumbing -/

theorem addUser_context (st : ConversationState) (t : String) :
    (addUser st t).context = st.context := by
  unfold addUser
  repeat' split
  all_goals rfl

theorem addUser_personaId (st : ConversationState) (t : String) :
    (addUser st t).personaId = st.personaId := by
  unfold addUser
  repeat' split
  all_goals rfl

theorem addAssistant_context (st : ConversationState) (t : String) :
    (addAssistant st t).context = st.context := by
  unfold addAssistant
  repeat' split
  all_goals rfl

theorem addAssistant_personaId (st : ConversationState) (t : String) :
    (addAssistant st t).personaId = st.personaId := by
  unfold addAssistant
  repeat' split
  all_goals rfl

/-- `turnStart` only touches `did_greet` (and the message list). -/
theorem turnStart_context (st : ConversationState) (u : String) :
    (turnStart st u).context = { st.context with didGreet := true } ∨
    (turnStart st u).context = st.context := by
  by_cases hg : (!st.context.didGreet) = true
  · by_cases hu : strip u ≠ ""
    · left; simp only [turnStart, hg, if_true, if_pos hu, addUser_context]
    · left; simp only [turnStart, hg, if_true, if_neg hu]
  · by_cases hu : strip u ≠ ""
    · right; simp only [turnStart, if_neg hg, if_pos hu, addUser_context]
    · right; simp only [turnStart, if_neg hg, if_neg hu]

theorem turnStart_personaId (st : ConversationState) (u : String) :
    (turnStart st u).personaId = st.personaId := by
  by_cases hg : (!st.context.didGreet) = true
  · by_cases hu : strip u ≠ ""
    · simp only [turnStart, hg, if_true, if_pos hu, addUser_personaId]
    · simp only [turnStart, hg, if_true, if_neg hu]
  · by_cases hu : strip u ≠ ""
    · simp only [turnStart, if_neg hg, if_pos hu, addUser_personaId]
    · simp only [turnStart, if_neg hg, if_neg hu]

theorem turnStart_pendingPersona (st : ConversationState) (u : String) :
    (turnStart st u).context.pendingPersona = st.context.pendingPersona := by
  rcases turnStart_context st u with h | h <;> rw [h]

theorem turnStart_awaitingConf (st : ConversationState) (u : String) :
    (turnStart st u).context.awaitingPersonaConfirmation =
      st.context.awaitingPersonaConfirmation := by
  rcases turnStart_context st u with h | h <;> rw [h]

theorem turnStart_pendingSlot (st : ConversationState) (u : String) :
    (turnStart st u).context.pendingSlot = st.context.pendingSlot := by
  rcases turnStart_context st u with h | h <;> rw [h]

theorem turnStart_academicStage (st : ConversationState) (u : String) :
    (turnStart st u).context.academicFlowStage =
      st.context.academicFlowStage := by
  rcases turnStart_context st u with h | h <;> rw [h]

theorem turnStart_confirmTries (st : ConversationState) (u : String) :
    (turnStart st u).context.confirmTries = st.context.confirmTries := by
  rcases turnStart_context st u with h | h <;> rw [h]

theorem turnStart_replay (st : ConversationState) (u : String) :
    (turnStart st u).context.pendingReplayUserInput =
      st.context.pendingReplayUserInput := by
  rcases turnStart_context st u with h | h <;> rw [h]

theorem isAcademicIntakeActive_turnStart (st : ConversationState) (u : String) :
    isAcademicIntakeActive (turnStart st u) = isAcademicIntakeActive st := by
  unfold isAcademicIntakeActive
  rw [turnStart_academicStage]

theorem isAcademicIntakeActive_sync (st : ConversationState) :
    isAcademicIntakeActive (syncPersonaAndProfile st) =
      isAcademicIntakeActive st := rfl

/-- Every early exit of `_should_route_pending_slot_now` yields `false`;
with a confirmation in flight the slot is never routed. -/
theorem shouldRoute_false_of_awaitConf (st : ConversationState) (u : String)
    (hconf : st.context.awaitingPersonaConfirmation = true) :
    shouldRoutePendingSlotNow st u = false := by
  unfold shouldRoutePendingSlotNow
  repeat' split
  all_goals simp_all

/-- `handle` with its branch structure exposed (definitional). -/
theorem handle_eval (c : Collab) (st0 : ConversationState) (u : String) :
    handle c st0 u =
      (if !(syncPersonaAndProfile st0).context.didGreet && strip u = "" &&
          !isAcademicIntakeActive (syncPersonaAndProfile st0) then
        handleGreeting c { syncPersonaAndProfile st0 with
          context := { (syncPersonaAndProfile st0).context with didGreet := true } } ""
      else if isAcademicIntakeActive (turnStart (syncPersonaAndProfile st0) u) &&
          !(turnStart (syncPersonaAndProfile st0) u).context.awaitingPersonaConfirmation then
        academicLockDispatch c (turnStart (syncPersonaAndProfile st0) u) u
      else if shouldRoutePendingSlotNow (turnStart (syncPersonaAndProfile st0) u) u then
        routePendingSlotToPersona c (turnStart (syncPersonaAndProfile st0) u) u
      else handleClassified c (turnStart (syncPersonaAndProfile st0) u) u) := rfl

/-- With a confirmation in flight (and no academic intake lock), a
non-blank turn always reaches `_handle_persona_confirmation` — in
particular it takes precedence over any pending menu slot. -/
theorem handle_to_confirm (c : Collab) (st0 : ConversationState) (u : String)
    (hact : isAcademicIntakeActive st0 = false)
    (hconf : st0.context.awaitingPersonaConfirmation = true)
    (hu : strip u ≠ "") :
    handle c st0 u =
      handlePersonaConfirmation c (turnStart (syncPersonaAndProfile st0) u) u := by
  have hactT : isAcademicIntakeActive (turnStart (syncPersonaAndProfile st0) u) = false := by
    rw [isAcademicIntakeActive_turnStart, isAcademicIntakeActive_sync, hact]
  have hconfT : (turnStart (syncPersonaAndProfile st0) u).context.awaitingPersonaConfirmation = true := by
    rw [turnStart_awaitingConf]
    exact hconf
  rw [handle_eval]
  rw [if_neg (by simp [hu])]
  rw [if_neg (by simp [hactT])]
  rw [if_neg (by simp [shouldRoute_false_of_awaitConf _ _ hconfT])]
  unfold handleClassified
  have hcl : classifyIntent c (turnStart (syncPersonaAndProfile st0) u) u =
      (.confirmYesno, {}) := by
    unfold classifyIntent
    rw [hactT]
    simp [hconfT]
  rw [hcl]
  rfl

/-! ## Confirmation-handler lemmas -/

theorem personaAlias_cases (p : String) :
    personaAlias p = "practical" ∨ personaAlias p = "academic" := by
  unfold personaAlias
  by_cases h0 : (p = "academic" || p = "practical") = true
  · rw [if_pos h0]
    rcases (Bool.or_eq_true _ _).mp h0 with h | h
    · exact Or.inr (of_decide_eq_true h)
    · exact Or.inl (of_decide_eq_true h)
  · rw [if_neg h0]
    by_cases h1 : p = "acad"
    · rw [if_pos h1]; exact Or.inr rfl
    rw [if_neg h1]
    by_cases h2 : p = "prac"
    · rw [if_pos h2]; exact Or.inl rfl
    rw [if_neg h2]
    by_cases h3 : p = "expert"
    · rw [if_pos h3]; exact Or.inr rfl
    rw [if_neg h3]
    by_cases h4 : p = "balanced"
    · rw [if_pos h4]; exact Or.inl rfl
    rw [if_neg h4]
    by_cases h5 : p = "minimal"
    · rw [if_pos h5]; exact Or.inl rfl
    rw [if_neg h5]
    by_cases h6 : p = "วิชาการ"
    · rw [if_pos h6]; exact Or.inr rfl
    rw [if_neg h6]
    by_cases h7 : p = "เชิงลึก"
    · rw [if_pos h7]; exact Or.inr rfl
    rw [if_neg h7]
    by_cases h8 : p = "ละเอียด"
    · rw [if_pos h8]; exact Or.inr rfl
    rw [if_neg h8]
    by_cases h9 : p = "ทางการ"
    · rw [if_pos h9]; exact Or.inr rfl
    rw [if_neg h9]
    by_cases h10 : p = "สั้น"
    · rw [if_pos h10]; exact Or.inl rfl
    rw [if_neg h10]
    by_cases h11 : p = "กระชับ"
    · rw [if_pos h11]; exact Or.inl rfl
    rw [if_neg h11]
    by_cases h12 : p = "เร็ว"
    · rw [if_pos h12]; exact Or.inl rfl
    rw [if_neg h12]
    by_cases h13 : p = "โหมดละเอียด"
    · rw [if_pos h13]; exact Or.inr rfl
    rw [if_neg h13]
    by_cases h14 : p = "โหมดสั้น"
    · rw [if_pos h14]; exact Or.inl rfl
    rw [if_neg h14]
    exact Or.inl rfl

theorem normalizePersonaId_cases (s : String) :
    normalizePersonaId s = "practical" ∨ normalizePersonaId s = "academic" := by
  unfold normalizePersonaId
  by_cases h0 : s = ""
  · rw [if_pos h0]; exact Or.inl rfl
  · rw [if_neg h0]; exact personaAlias_cases _

theorem normalizePersonaId_idem (s : String) :
    normalizePersonaId (normalizePersonaId s) = normalizePersonaId s := by
  rcases normalizePersonaId_cases s with h | h <;> rw [h] <;> decide

set_option maxHeartbeats 1600000 in
/-- The unclear path of `_handle_persona_confirmation`: the retry
counter increments; at the second attempt everything is cleared; the
persona never changes. -/
theorem confirm_unclear (c : Collab) (st : ConversationState) (u p : String)
    (hp : st.context.pendingPersona = some p)
    (hunc : resolveConfirm c u = (false, false)) :
    (handlePersonaConfirmation c st u).1.personaId = st.personaId ∧
    (st.context.confirmTries.getD 0 + 1 ≥ 2 →
      (handlePersonaConfirmation c st u).1.context.pendingPersona = none ∧
      (handlePersonaConfirmation c st u).1.context.awaitingPersonaConfirmation = false ∧
      (handlePersonaConfirmation c st u).1.context.confirmTries = none ∧
      (handlePersonaConfirmation c st u).1.context.pendingReplayUserInput = none) ∧
    (st.context.confirmTries.getD 0 + 1 < 2 →
      (handlePersonaConfirmation c st u).1.context.confirmTries =
        some (st.context.confirmTries.getD 0 + 1) ∧
      (handlePersonaConfirmation c st u).1.context.pendingPersona = some p ∧
      (handlePersonaConfirmation c st u).1.context.awaitingPersonaConfirmation =
        st.context.awaitingPersonaConfirmation ∧
      (handlePersonaConfirmation c st u).1.context.pendingSlot =
        st.context.pendingSlot) := by
  have h1 : (resolveConfirm c u).1 = false := by rw [hunc]
  have h2 : (resolveConfirm c u).2 = false := by rw [hunc]
  unfold handlePersonaConfirmation
  simp only [hp]
  rw [h1, if_neg (by decide : ¬ (false = true))]
  rw [h2, if_neg (by decide : ¬ (false = true))]
  by_cases hge : st.context.confirmTries.getD 0 + 1 ≥ 2
  · rw [if_pos hge]
    refine ⟨by simp [addAssistant_personaId], fun _ => ?_,
      fun hlt => absurd hge (by omega)⟩
    simp [addAssistant_context]
  · rw [if_neg hge]
    refine ⟨by simp [addAssistant_personaId], fun hg => absurd hg hge,
      fun _ => ?_⟩
    simp [addAssistant_context]

set_option maxHeartbeats 1600000 in
/-- The yes path of `_handle_persona_confirmation` when no replay input
is queued. -/
theorem confirm_yes_no_replay (c : Collab) (st : ConversationState) (u p : String)
    (hp : st.context.pendingPersona = some p)
    (hres : resolveConfirm c u = (true, false))
    (hreplay : strip (st.context.pendingReplayUserInput.getD "") = "") :
    (handlePersonaConfirmation c st u).1.personaId = normalizePersonaId p ∧
    (handlePersonaConfirmation c st u).1.context.awaitingPersonaConfirmation = false ∧
    (handlePersonaConfirmation c st u).1.context.pendingSlot =
      st.context.pendingSlot ∧
    (handlePersonaConfirmation c st u).1.context.pendingPersona = none := by
  have h1 : (resolveConfirm c u).1 = true := by rw [hres]
  unfold handlePersonaConfirmation
  simp only [hp]
  rw [h1, if_pos rfl]
  rw [if_neg (show ¬ (strip ((syncPersonaAndProfile
      { st with personaId := normalizePersonaId p }).context.pendingReplayUserInput.getD "") ≠ "")
    from by simpa using hreplay)]
  refine ⟨?_, ?_, ?_, ?_⟩
  all_goals
    simp [addAssistant_context, addAssistant_personaId, syncPersonaAndProfile,
      normalizePersonaId_idem]

set_option maxHeartbeats 1600000 in
/-- The no path of `_handle_persona_confirmation`. -/
theorem confirm_no (c : Collab) (st : ConversationState) (u p : String)
    (hp : st.context.pendingPersona = some p)
    (hres : resolveConfirm c u = (false, true)) :
    (handlePersonaConfirmation c st u).1.personaId = st.personaId ∧
    (handlePersonaConfirmation c st u).1.context.awaitingPersonaConfirmation = false ∧
    (handlePersonaConfirmation c st u).1.context.pendingSlot =
      st.context.pendingSlot ∧
    (handlePersonaConfirmation c st u).1.context.pendingPersona = none := by
  have h1 : (resolveConfirm c u).1 = false := by rw [hres]
  have h2 : (resolveConfirm c u).2 = true := by rw [hres]
  unfold handlePersonaConfirmation
  simp only [hp]
  rw [h1, if_neg (by decide : ¬ (false = true))]
  rw [h2, if_pos rfl]
  refine ⟨?_, ?_, ?_, ?_⟩
  all_goals simp [addAssistant_context, addAssistant_personaId]

/-! ## Claim C2: the Retrieval Gate -/

/-- The Retrieval Gate as the spec's words describe it (claim C2), for
comparison with `shouldRetrieveNewForPractical`: retrieve on empty
cache or missing prior query; reuse on equality; reuse for very short
utterances (no loose tokens); otherwise retrieve only when the overlap
ratio is below 0.22 AND the utterance carries domain-signal
vocabulary. -/
def retrievalGateSpecClaim (st : ConversationState) (u : String) : Bool :=
  if st.currentDocs.isEmpty then true
  else if gateLastQuery st = "" then true
  else if gateLastQuery st = strip u then false
  else if (tokenizeLoose (strip u)).isEmpty then false
  else
    overlapBelow22 (gateLastQuery st) (strip u) &&
    legalSignal (normalizeForIntent u)

/-- A cached-documents state with prior query "alpha beta". -/
def c2State : ConversationState :=
  { currentDocs := [⟨"doc", []⟩], lastRetrievalQuery := some "alpha beta" }

/-- Claim C2 is false on the code: with documents cached, prior query
"alpha beta" and new utterance "gamma delta" — overlap 0 < 0.22 but NO
domain-signal vocabulary — the claim (and `retrievalGateSpecClaim`,
which spells out its words) says the gate must reuse the cache, yet
`_should_retrieve_new_for_practical` retrieves: the code never tests
domain-signal vocabulary. -/
theorem c2_counterexample :
    shouldRetrieveNewForPractical c2State "gamma delta" = true ∧
    retrievalGateSpecClaim c2State "gamma delta" = false ∧
    legalSignal (normalizeForIntent "gamma delta") = false ∧
    c2State.currentDocs ≠ [] ∧
    gateLastQuery c2State = "alpha beta" ∧
    overlapBelow22 "alpha beta" "gamma delta" = true := by
  refine ⟨by decide, by decide, by decide, by decide, by decide, by decide⟩

/-- An utterance with no loose tokens has overlap ratio 0.0, which is
below 0.22. -/
theorem overlapBelow22_of_right_tokenless (a b : String)
    (h : tokenizeLoose b = []) : overlapBelow22 a b = true := by
  unfold overlapBelow22
  rw [h]
  show (if ((distinctTokens (tokenizeLoose a)).isEmpty ||
            (distinctTokens []).isEmpty) = true then true
        else decide (100 * (topicOverlapCounts a b).1 <
          22 * (topicOverlapCounts a b).2)) = true
  rw [show distinctTokens ([] : List String) = [] from rfl]
  rw [show ([] : List String).isEmpty = true from rfl]
  rw [Bool.or_true]
  rfl

/-- Amended claim C2: the gate retrieves when no documents are cached or
no prior query exists, reuses when the (stripped) new utterance equals
the prior query, and otherwise retrieves exactly when the token-set
overlap ratio is below 0.22 — there is no domain-signal condition, and
an utterance with no loose tokens (a very short utterance) has overlap
0 and therefore retrieves rather than reuses. -/
theorem c2_amended_gate (st : ConversationState) (u : String) :
    (strip u ≠ "" → st.currentDocs = [] →
      shouldRetrieveNewForPractical st u = true) ∧
    (strip u ≠ "" → st.currentDocs ≠ [] → gateLastQuery st = "" →
      shouldRetrieveNewForPractical st u = true) ∧
    (st.currentDocs ≠ [] → gateLastQuery st ≠ "" → gateLastQuery st = strip u →
      shouldRetrieveNewForPractical st u = false) ∧
    (strip u ≠ "" → st.currentDocs ≠ [] → gateLastQuery st ≠ "" →
      gateLastQuery st ≠ strip u →
      shouldRetrieveNewForPractical st u =
        overlapBelow22 (gateLastQuery st) (strip u)) ∧
    (strip u ≠ "" → st.currentDocs ≠ [] → gateLastQuery st ≠ "" →
      gateLastQuery st ≠ strip u → tokenizeLoose (strip u) = [] →
      shouldRetrieveNewForPractical st u = true) := by
  have hgate : ∀ v : String, shouldRetrieveNewForPractical st v =
      (if strip v = "" then false
      else if st.currentDocs.isEmpty then true
      else if gateLastQuery st = "" then true
      else if gateLastQuery st = strip v then false
      else overlapBelow22 (gateLastQuery st) (strip v)) := fun _ => rfl
  refine ⟨?_, ?_, ?_, ?_, ?_⟩
  · intro hu hd
    rw [hgate, if_neg hu, if_pos (List.isEmpty_iff.mpr hd)]
  · intro hu hd hq
    rw [hgate, if_neg hu,
      if_neg (by simpa using fun h => hd (List.isEmpty_iff.mp h)), if_pos hq]
  · intro hd hq heq
    have hu : strip u ≠ "" := fun h => hq (heq.trans h)
    rw [hgate, if_neg hu,
      if_neg (by simpa using fun h => hd (List.isEmpty_iff.mp h)), if_neg hq,
      if_pos heq]
  · intro hu hd hq hne
    rw [hgate, if_neg hu,
      if_neg (by simpa using fun h => hd (List.isEmpty_iff.mp h)), if_neg hq,
      if_neg hne]
  · intro hu hd hq hne htok
    have hove : overlapBelow22 (gateLastQuery st) (strip u) = true :=
      overlapBelow22_of_right_tokenless _ _ htok
    rw [hgate, if_neg hu,
      if_neg (by simpa using fun h => hd (List.isEmpty_iff.mp h)), if_neg hq,
      if_neg hne, hove]

/-- Witness for `c2_amended_gate`: a state with no cached documents and
the legal question "ภาษี" must retrieve. -/
theorem c2_amended_gate_witness :
    shouldRetrieveNewForPractical { currentDocs := [] } "ภาษี" = true :=
  (c2_amended_gate { currentDocs := [] } "ภาษี").1 (by decide) rfl

/-! ## Claim C3: pending-slot reply parsing -/

/-- Claim C3 is false on the code: with five options, the reply "12"
does NOT resolve to indices 1 and 2 — `\b(\d{1,2})\b` already matches
"12" as the single number 12, so the concatenated-digit fallback never
runs and the reply is rejected as out of range. -/
theorem c3_counterexample :
    mapPendingSlotReply ⟨"topic", ["a", "b", "c", "d", "e"], true⟩ "12" =
      (none, some msgOutOfRange) ∧
    mapPendingSlotReply ⟨"topic", ["a", "b", "c", "d", "e"], true⟩ "12" ≠
      (some "a, b", none) ∧
    parseIndices "12" = [12] := by
  refine ⟨by decide, by decide, by decide⟩

/-- Amended claim C3: parsing order is — explicit "all" marker (valid
only when `allow_multi`); then ranges `a-b` (inclusive,
order-independent) TOGETHER with standalone numeric tokens of 1–2
digits; the concatenated-single-digit reading applies only when that
pass found nothing, i.e. for an all-digit reply of ≥ 2 characters (in
practice ≥ 3, since 1–2-digit replies are standalone tokens) with at
most 9 options — so "123" resolves to 1, 2, 3 but "12" is the single
index 12; indices are 1-based, de-duplicated preserving first
occurrence, and validated against `1..len(options)`. -/
theorem c3_amended (k o1 o2 o3 o4 o5 : String)
    (h1 : strip o1 = o1) (h2 : strip o2 = o2) (h3 : strip o3 = o3)
    (h4 : strip o4 = o4) (h5 : strip o5 = o5)
    (n1 : o1 ≠ "") (n2 : o2 ≠ "") (n3 : o3 ≠ "")
    (n4 : o4 ≠ "") (n5 : o5 ≠ "") :
    mapPendingSlotReply ⟨k, [o1, o2, o3, o4, o5], true⟩ "123" =
      (some (joinComma [o1, o2, o3]), none) ∧
    mapPendingSlotReply ⟨k, [o1, o2, o3, o4, o5], true⟩ "12" =
      (none, some msgOutOfRange) ∧
    parseIndices "12" = [12] ∧
    parseIndices "123" = [] ∧
    mapPendingSlotReply ⟨k, [o1, o2, o3, o4, o5], true⟩ "2-4" =
      (some (joinComma [o2, o3, o4]), none) ∧
    mapPendingSlotReply ⟨k, [o1, o2, o3, o4, o5], true⟩ "4-2" =
      (some (joinComma [o2, o3, o4]), none) ∧
    mapPendingSlotReply ⟨k, [o1, o2, o3, o4, o5], true⟩ "3 2 3" =
      (some (joinComma [o3, o2]), none) ∧
    mapPendingSlotReply ⟨k, [o1, o2, o3, o4, o5], false⟩ "ทั้งหมด" =
      (none, some msgMultiOnly) ∧
    mapPendingSlotReply ⟨k, [o1, o2, o3, o4, o5], true⟩ "ทั้งหมด" =
      (some (joinComma [o1, o2, o3, o4, o5]), none) ∧
    mapPendingSlotReply ⟨k, [o1, o2, o3, o4, o5], false⟩ "2" =
      (some o2, none) ∧
    mapPendingSlotReply ⟨k, [o1, o2, o3, o4, o5], true⟩ "0" =
      (none, some msgOutOfRange) := by
  refine ⟨?_, ?_, by decide, by decide, ?_, ?_, ?_, ?_, ?_, ?_, ?_⟩
  · unfold mapPendingSlotReply
    simp [h1, h2, h3, n1, n2, n3, joinComma, isDigitChar, UInt32.size,
      List.getD, show strip "123" = "123" from rfl,
      show lowerStr "123" = "123" from rfl,
      show allMarkerSearch "123" = false from rfl,
      show parseIndices "123" = [] from rfl]
  · unfold mapPendingSlotReply
    simp [joinComma, isDigitChar, UInt32.size, List.getD,
      show strip "12" = "12" from rfl, show lowerStr "12" = "12" from rfl,
      show allMarkerSearch "12" = false from rfl,
      show parseIndices "12" = [12] from rfl]
  · unfold mapPendingSlotReply
    simp [h2, h3, h4, n2, n3, n4, joinComma, isDigitChar, UInt32.size,
      List.getD, show strip "2-4" = "2-4" from rfl,
      show lowerStr "2-4" = "2-4" from rfl,
      show allMarkerSearch "2-4" = false from rfl,
      show parseIndices "2-4" = [2, 3, 4] from rfl]
  · unfold mapPendingSlotReply
    simp [h2, h3, h4, n2, n3, n4, joinComma, isDigitChar, UInt32.size,
      List.getD, show strip "4-2" = "4-2" from rfl,
      show lowerStr "4-2" = "4-2" from rfl,
      show allMarkerSearch "4-2" = false from rfl,
      show parseIndices "4-2" = [2, 3, 4] from rfl]
  · unfold mapPendingSlotReply
    simp [h2, h3, n2, n3, joinComma, isDigitChar, UInt32.size,
      List.getD, show strip "3 2 3" = "3 2 3" from rfl,
      show lowerStr "3 2 3" = "3 2 3" from rfl,
      show allMarkerSearch "3 2 3" = false from rfl,
      show parseIndices "3 2 3" = [3, 2] from rfl]
  · unfold mapPendingSlotReply
    simp [show strip "ทั้งหมด" = "ทั้งหมด" from rfl,
      show lowerStr "ทั้งหมด" = "ทั้งหมด" from rfl,
      show allMarkerSearch "ทั้งหมด" = true from rfl]
  · unfold mapPendingSlotReply
    simp [h1, h2, h3, h4, h5, n1, n2, n3, n4, n5, joinComma,
      show strip "ทั้งหมด" = "ทั้งหมด" from rfl,
      show lowerStr "ทั้งหมด" = "ทั้งหมด" from rfl,
      show allMarkerSearch "ทั้งหมด" = true from rfl]
  · unfold mapPendingSlotReply
    simp [h2, joinComma, isDigitChar, UInt32.size, List.getD,
      show strip "2" = "2" from rfl, show lowerStr "2" = "2" from rfl,
      show allMarkerSearch "2" = false from rfl,
      show parseIndices "2" = [2] from rfl]
  · unfold mapPendingSlotReply
    simp [joinComma, isDigitChar, UInt32.size, List.getD,
      show strip "0" = "0" from rfl, show lowerStr "0" = "0" from rfl,
      show allMarkerSearch "0" = false from rfl,
      show parseIndices "0" = [0] from rfl]

/-- Witness for `c3_amended` at the concrete five-option menu
a/b/c/d/e. -/
theorem c3_amended_witness :
    mapPendingSlotReply ⟨"topic", ["a", "b", "c", "d", "e"], true⟩ "123" =
      (some (joinComma ["a", "b", "c"]), none) ∧
    mapPendingSlotReply ⟨"topic", ["a", "b", "c", "d", "e"], false⟩ "2" =
      (some "b", none) :=
  ⟨(c3_amended "topic" "a" "b" "c" "d" "e" (by decide) (by decide) (by decide)
      (by decide) (by decide) (by decide) (by decide) (by decide) (by decide)
      (by decide)).1,
   (c3_amended "topic" "a" "b" "c" "d" "e" (by decide) (by decide) (by decide)
      (by decide) (by decide) (by decide) (by decide) (by decide) (by decide)
      (by decide)).2.2.2.2.2.2.2.2.2.1⟩

/-! ## Claims C4, C7, C10: the confirmation sub-protocol -/

/-- A trivial concrete instantiation of the external collaborators,
used by the witnesses. -/
def collabW : Collab :=
  { retriever := fun _ => [], academic := fun st _ _ => (st, "A"),
    practical := fun st _ => (st, "P"), llmConfirm := fun _ => none,
    llmStyle := fun _ => none, llmGreetPrefixCall := fun _ _ _ _ => none,
    pick := fun _ => 0 }

/-- C4: while a persona-switch confirmation is pending, a reply whose
yes/no resolution is unclear increments `confirm_tries`; at the second
unclear attempt the switch is cancelled — `persona_id` is unchanged and
`pending_persona`, `awaiting_persona_confirmation`, `confirm_tries` and
the queued replay input are all cleared — so the confirmation
sub-protocol never loops indefinitely. -/
theorem c4_confirm_retry_cap (c : Collab) (st : ConversationState) (u p : String)
    (hconf : st.context.awaitingPersonaConfirmation = true)
    (hp : st.context.pendingPersona = some p)
    (hunc : resolveConfirm c u = (false, false)) :
    (handlePersonaConfirmation c st u).1.personaId = st.personaId ∧
    (st.context.confirmTries.getD 0 + 1 ≥ 2 →
      (handlePersonaConfirmation c st u).1.context.pendingPersona = none ∧
      (handlePersonaConfirmation c st u).1.context.awaitingPersonaConfirmation = false ∧
      (handlePersonaConfirmation c st u).1.context.confirmTries = none ∧
      (handlePersonaConfirmation c st u).1.context.pendingReplayUserInput = none) ∧
    (st.context.confirmTries.getD 0 + 1 < 2 →
      (handlePersonaConfirmation c st u).1.context.confirmTries =
        some (st.context.confirmTries.getD 0 + 1) ∧
      (handlePersonaConfirmation c st u).1.context.pendingPersona = some p ∧
      (handlePersonaConfirmation c st u).1.context.awaitingPersonaConfirmation =
        st.context.awaitingPersonaConfirmation) := by
  have h := confirm_unclear c st u p hp hunc
  exact ⟨h.1, h.2.1, fun hlt =>
    ⟨(h.2.2 hlt).1, (h.2.2 hlt).2.1, (h.2.2 hlt).2.2.1⟩⟩

/-- A pending confirmation towards academic, no tries yet. -/
def stC4a : ConversationState :=
  { personaId := "practical",
    context := { didGreet := true, awaitingPersonaConfirmation := true,
                 pendingPersona := some "academic" } }

/-- The same, already at one unclear attempt. -/
def stC4b : ConversationState :=
  { personaId := "practical",
    context := { didGreet := true, awaitingPersonaConfirmation := true,
                 pendingPersona := some "academic", confirmTries := some 1 } }

/-- Witness for `c4_confirm_retry_cap`: with the unclear reply "งง" the
first attempt re-prompts with the counter at 1; the second cancels the
switch with the persona unchanged. -/
theorem c4_confirm_retry_cap_witness :
    (handlePersonaConfirmation collabW stC4a "งง").1.context.confirmTries = some 1 ∧
    (handlePersonaConfirmation collabW stC4b "งง").1.context.awaitingPersonaConfirmation = false ∧
    (handlePersonaConfirmation collabW stC4b "งง").1.context.pendingPersona = none ∧
    (handlePersonaConfirmation collabW stC4b "งง").1.personaId = "practical" :=
  ⟨((c4_confirm_retry_cap collabW stC4a "งง" "academic" rfl rfl rfl).2.2
      (by decide)).1,
   ((c4_confirm_retry_cap collabW stC4b "งง" "academic" rfl rfl rfl).2.1
      (by decide)).2.1,
   ((c4_confirm_retry_cap collabW stC4b "งง" "academic" rfl rfl rfl).2.1
      (by decide)).1,
   (c4_confirm_retry_cap collabW stC4b "งง" "academic" rfl rfl rfl).1⟩

/-- C7: while a confirmation is pending, a bare politeness particle
("ครับ") is classified neither yes nor no (`filler_only`) and the turn
leaves `persona_id` unchanged. -/
theorem c7_filler_no_switch (c : Collab) (st : ConversationState) (p : String)
    (hact : isAcademicIntakeActive st = false)
    (hconf : st.context.awaitingPersonaConfirmation = true)
    (hp : st.context.pendingPersona = some p)
    (hn : normalizePersonaId st.personaId = st.personaId) :
    classifyYesNoDet "ครับ" = ⟨false, false, "filler_only"⟩ ∧
    (handle c st "ครับ").1.personaId = st.personaId := by
  refine ⟨by decide, ?_⟩
  rw [handle_to_confirm c st "ครับ" hact hconf (by decide)]
  have hpT : (turnStart (syncPersonaAndProfile st) "ครับ").context.pendingPersona =
      some p := by
    rw [turnStart_pendingPersona]; exact hp
  have h := (confirm_unclear c (turnStart (syncPersonaAndProfile st) "ครับ")
    "ครับ" p hpT rfl).1
  rw [h, turnStart_personaId]
  exact hn

def stC7 : ConversationState :=
  { personaId := "practical",
    context := { didGreet := true, awaitingPersonaConfirmation := true,
                 pendingPersona := some "academic" } }

/-- Witness for `c7_filler_no_switch`. -/
theorem c7_filler_no_switch_witness :
    (handle collabW stC7 "ครับ").1.personaId = "practical" :=
  (c7_filler_no_switch collabW stC7 "academic" rfl rfl rfl (by decide)).2

/-- C10: while a confirmation is pending, a reply of exactly "1" is
deterministically yes (the persona becomes the pending target) and "2"
is deterministically no (the switch is cancelled), even when a pending
menu slot exists — the slot is neither consumed nor routed. -/
theorem c10_digit_confirm_precedence (c : Collab) (st : ConversationState)
    (p : String) (slot : PendingSlot)
    (hact : isAcademicIntakeActive st = false)
    (hconf : st.context.awaitingPersonaConfirmation = true)
    (hp : st.context.pendingPersona = some p)
    (hslot : st.context.pendingSlot = some slot)
    (hreplay : strip (st.context.pendingReplayUserInput.getD "") = "")
    (hn : normalizePersonaId st.personaId = st.personaId) :
    classifyYesNoDet "1" = ⟨true, false, "num_yes"⟩ ∧
    classifyYesNoDet "2" = ⟨false, true, "num_no"⟩ ∧
    (handle c st "1").1.personaId = normalizePersonaId p ∧
    (handle c st "1").1.context.pendingSlot = some slot ∧
    (handle c st "1").1.context.awaitingPersonaConfirmation = false ∧
    (handle c st "2").1.personaId = st.personaId ∧
    (handle c st "2").1.context.pendingSlot = some slot ∧
    (handle c st "2").1.context.awaitingPersonaConfirmation = false := by
  have hT1 := handle_to_confirm c st "1" hact hconf (by decide)
  have hT2 := handle_to_confirm c st "2" hact hconf (by decide)
  have hpT1 : (turnStart (syncPersonaAndProfile st) "1").context.pendingPersona =
      some p := by rw [turnStart_pendingPersona]; exact hp
  have hpT2 : (turnStart (syncPersonaAndProfile st) "2").context.pendingPersona =
      some p := by rw [turnStart_pendingPersona]; exact hp
  have hrT1 : strip ((turnStart (syncPersonaAndProfile st)
      "1").context.pendingReplayUserInput.getD "") = "" := by
    rw [turnStart_replay]; exact hreplay
  refine ⟨by decide, by decide, ?_, ?_, ?_, ?_, ?_, ?_⟩
  · rw [hT1]
    exact (confirm_yes_no_replay c _ "1" p hpT1 rfl hrT1).1
  · rw [hT1, (confirm_yes_no_replay c _ "1" p hpT1 rfl hrT1).2.2.1,
      turnStart_pendingSlot]
    exact hslot
  · rw [hT1]
    exact (confirm_yes_no_replay c _ "1" p hpT1 rfl hrT1).2.1
  · rw [hT2, (confirm_no c _ "2" p hpT2 rfl).1, turnStart_personaId]
    exact hn
  · rw [hT2, (confirm_no c _ "2" p hpT2 rfl).2.2.1, turnStart_pendingSlot]
    exact hslot
  · rw [hT2]
    exact (confirm_no c _ "2" p hpT2 rfl).2.1

def stC10 : ConversationState :=
  { personaId := "practical",
    context := { didGreet := true, awaitingPersonaConfirmation := true,
                 pendingPersona := some "academic",
                 pendingSlot := some ⟨"topic", ["a", "b"], false⟩ } }

/-- Witness for `c10_digit_confirm_precedence`. -/
theorem c10_digit_confirm_precedence_witness :
    (handle collabW stC10 "1").1.personaId = "academic" ∧
    (handle collabW stC10 "2").1.personaId = "practical" ∧
    (handle collabW stC10 "1").1.context.pendingSlot =
      some ⟨"topic", ["a", "b"], false⟩ :=
  ⟨(c10_digit_confirm_precedence collabW stC10 "academic" ⟨"topic", ["a", "b"], false⟩
      rfl rfl rfl rfl rfl (by decide)).2.2.1,
   (c10_digit_confirm_precedence collabW stC10 "academic" ⟨"topic", ["a", "b"], false⟩
      rfl rfl rfl rfl rfl (by decide)).2.2.2.2.2.1,
   (c10_digit_confirm_precedence collabW stC10 "academic" ⟨"topic", ["a", "b"], false⟩
      rfl rfl rfl rfl rfl (by decide)).2.2.2.1⟩

/-! ## Claim C5: slot-resolution errors and consumption -/

/-- C5: when a pending-slot reply fails to resolve, the out-of-range
and no-numeric-token cases produce distinct corrective replies and the
`pending_slot` entry is left unchanged for a retry; on success the slot
is removed from the context (by `consumedSlotState`) before the
resolved value is dispatched to the active persona strategy. -/
theorem c5_slot_error_and_consumption (c : Collab) (st : ConversationState)
    (pending : PendingSlot) (u : String)
    (hslot : st.context.pendingSlot = some pending) :
    normalizeMale msgOutOfRange ≠ normalizeMale msgNoNumeric ∧
    normalizeMale msgMultiOnly ≠ normalizeMale msgNoNumeric ∧
    normalizeMale msgMultiOnly ≠ normalizeMale msgOutOfRange ∧
    (∀ e, mapPendingSlotReply pending u = (none, some e) →
      routePendingSlotToPersona c st u = slotInvalidReply st e ∧
      (routePendingSlotToPersona c st u).1.context.pendingSlot = some pending) ∧
    (∀ v, mapPendingSlotReply pending u = (some v, none) → v ≠ "" →
      (consumedSlotState st pending v).context.pendingSlot = none ∧
      routePendingSlotToPersona c st u =
        (if normalizePersonaId st.personaId = "academic" then
          academicSlotDispatch c (consumedSlotState st pending v) v
        else practicalSlotDispatch c (consumedSlotState st pending v) v)) := by
  refine ⟨by decide, by decide, by decide, ?_, ?_⟩
  · intro e he
    have hroute : routePendingSlotToPersona c st u = slotInvalidReply st e := by
      unfold routePendingSlotToPersona
      rw [hslot]
      simp only [Option.getD_some, he]
    refine ⟨hroute, ?_⟩
    rw [hroute]
    simp [slotInvalidReply, addAssistant_context, hslot]
  · intro v hv hne
    constructor
    · by_cases hk : pending.key = "topic"
      · simp [consumedSlotState, hk]
      · simp [consumedSlotState, hk]
    · unfold routePendingSlotToPersona
      rw [hslot]
      simp only [Option.getD_some, hv, if_neg hne]

def stC5 : ConversationState :=
  { personaId := "practical",
    context := { didGreet := true,
                 pendingSlot := some ⟨"topic", ["a", "b", "c"], false⟩ } }

/-- Witness for `c5_slot_error_and_consumption`: "9" is out of range on
a 3-option slot and preserves it; the resolved "2" has its slot removed
before dispatch. -/
theorem c5_slot_error_and_consumption_witness :
    routePendingSlotToPersona collabW stC5 "9" =
      slotInvalidReply stC5 msgOutOfRange ∧
    (routePendingSlotToPersona collabW stC5 "9").1.context.pendingSlot =
      some ⟨"topic", ["a", "b", "c"], false⟩ ∧
    (consumedSlotState stC5 ⟨"topic", ["a", "b", "c"], false⟩ "b").context.pendingSlot =
      none :=
  ⟨((c5_slot_error_and_consumption collabW stC5 ⟨"topic", ["a", "b", "c"], false⟩
      "9" rfl).2.2.2.1 msgOutOfRange (by decide)).1,
   ((c5_slot_error_and_consumption collabW stC5 ⟨"topic", ["a", "b", "c"], false⟩
      "9" rfl).2.2.2.1 msgOutOfRange (by decide)).2,
   ((c5_slot_error_and_consumption collabW stC5 ⟨"topic", ["a", "b", "c"], false⟩
      "2" rfl).2.2.2.2 "b" (by decide) (by decide)).1⟩

theorem getTopicPool_personaId (c : Collab) (s : ConversationState) :
    (getTopicPool c s).2.1.personaId = s.personaId := by
  unfold getTopicPool
  repeat' split
  all_goals rfl

theorem getTopicPool_autoReturnFlag (c : Collab) (s : ConversationState) :
    (getTopicPool c s).2.1.context.autoReturnAfterAcademicDone =
      s.context.autoReturnAfterAcademicDone := by
  unfold getTopicPool
  repeat' split
  all_goals rfl

/-- `_mark_auto_return_if_practical_to_academic` arms the flag exactly
for a practical → academic switch. -/
theorem markAutoReturn_flag (st : ConversationState) (tgt : String) :
    (markAutoReturn st tgt).context.autoReturnAfterAcademicDone =
      (normalizePersonaId st.personaId = "practical" &&
       normalizePersonaId tgt = "academic") := by
  simp only [markAutoReturn]
  split <;> simp_all

/-- C6: whenever the academic intake lock is active
(`academic_flow.stage` is an active value such as `"awaiting_slots"`)
and no persona confirmation is in flight, `handle` routes the turn —
whatever its text, a pure greeting included — through the
academic-intake-lock dispatch (academic strategy with forced intake),
never through the greeting/menu handler. -/
theorem c6_academic_lock_overrides_greeting (c : Collab)
    (st : ConversationState) (u : String)
    (hact : isAcademicIntakeActive st = true)
    (hconf : st.context.awaitingPersonaConfirmation = false) :
    handle c st u =
      academicLockDispatch c (turnStart (syncPersonaAndProfile st) u) u := by
  have hactS : isAcademicIntakeActive (syncPersonaAndProfile st) = true := by
    rw [isAcademicIntakeActive_sync]; exact hact
  have hactT : isAcademicIntakeActive (turnStart (syncPersonaAndProfile st) u) = true := by
    rw [isAcademicIntakeActive_turnStart]; exact hactS
  have hconfT : (turnStart (syncPersonaAndProfile st) u).context.awaitingPersonaConfirmation
      = false := by
    rw [turnStart_awaitingConf]; exact hconf
  rw [handle_eval]
  rw [if_neg (by simp [hactS])]
  rw [if_pos (by simp [hactT, hconfT])]

def stC6 : ConversationState :=
  { personaId := "practical",
    context := { didGreet := true,
                 academicFlowStage := some "awaiting_slots",
                 topicPool := some fallbackBase } }

/-- Witness for `c6_academic_lock_overrides_greeting`: with the lock
armed, the pure greeting goes to the academic strategy, and the
resulting reply is not the topic-menu greeting that the same state and
input would have produced. -/
theorem c6_academic_lock_overrides_greeting_witness :
    handle collabW stC6 "สวัสดีครับ" =
      academicLockDispatch collabW
        (turnStart (syncPersonaAndProfile stC6) "สวัสดีครับ") "สวัสดีครับ" ∧
    (handle collabW stC6 "สวัสดีครับ").2.1 ≠
      (handleGreeting collabW stC6 "สวัสดีครับ").2.1 :=
  ⟨c6_academic_lock_overrides_greeting collabW stC6 "สวัสดีครับ" rfl rfl,
   by decide⟩

set_option maxHeartbeats 1600000 in
/-- C9: after an academic dispatch, the auto-return hook fires exactly
when the auto-return flag is armed and the academic flow stage is the
terminal marker "done"; it then force-switches the persona back to
practical, clears the flag, installs a freshly composed topic menu as
the new pending slot, and appends that menu rendered with the ack
phrase (no re-greeting intro) after the strategy's answer; in every
other case state and reply pass through unchanged.  The flag itself is
armed exactly by a practical → academic detour. -/
theorem c9_auto_return (c : Collab) (st : ConversationState) (reply : String) :
    ((st.context.autoReturnAfterAcademicDone && academicStageDone st) = true →
      postRouteAcademicAutoReturn c st reply = autoReturnApply c st reply ∧
      (postRouteAcademicAutoReturn c st reply).1.personaId = "practical" ∧
      (postRouteAcademicAutoReturn c st reply).1.context.autoReturnAfterAcademicDone
        = false ∧
      (postRouteAcademicAutoReturn c st reply).1.context.pendingSlot =
        some ⟨"topic", (composeMenuTopics c (autoReturnCleared st) menuSize).1,
          false⟩ ∧
      (postRouteAcademicAutoReturn c st reply).2.1 =
        normalizeMale (rstrip reply ++ "\n\n" ++
          renderGreetingWithMenu c
            (menuRefreshState
              (composeMenuTopics c (autoReturnCleared st) menuSize).2.1
              (composeMenuTopics c (autoReturnCleared st) menuSize).1)
            "smalltalk"
            (composeMenuTopics c (autoReturnCleared st) menuSize).1 false)) ∧
    ((st.context.autoReturnAfterAcademicDone && academicStageDone st) = false →
      postRouteAcademicAutoReturn c st reply = (st, reply, [])) ∧
    (∀ tgt, (markAutoReturn st tgt).context.autoReturnAfterAcademicDone =
      (normalizePersonaId st.personaId = "practical" &&
       normalizePersonaId tgt = "academic")) := by
  refine ⟨?_, ?_, markAutoReturn_flag st⟩
  · intro hcond
    have hpr : postRouteAcademicAutoReturn c st reply = autoReturnApply c st reply := by
      unfold postRouteAcademicAutoReturn
      rw [if_pos hcond]
    refine ⟨hpr, ?_, ?_, ?_, ?_⟩ <;> rw [hpr]
    · show (getTopicPool c (autoReturnCleared st)).2.1.personaId = "practical"
      rw [getTopicPool_personaId]
      rfl
    · show (getTopicPool c (autoReturnCleared st)).2.1.context.autoReturnAfterAcademicDone
        = false
      rw [getTopicPool_autoReturnFlag]
      rfl
    · rfl
    · simp only [autoReturnApply]
  · intro hcond
    unfold postRouteAcademicAutoReturn
    rw [if_neg (by simp [hcond])]

def stC9 : ConversationState :=
  { personaId := "academic",
    context := { didGreet := true,
                 academicFlowStage := some "done",
                 autoReturnAfterAcademicDone := true,
                 topicPool := some fallbackBase } }

def stC9alt : ConversationState :=
  { personaId := "academic",
    context := { didGreet := true,
                 academicFlowStage := some "awaiting_slots",
                 autoReturnAfterAcademicDone := true } }

/-- Witness for `c9_auto_return`: on a completed academic flow with the
flag armed the hook returns to practical with a fresh menu slot; on an
active (non-terminal) flow it passes state and reply through
untouched. -/
theorem c9_auto_return_witness :
    (postRouteAcademicAutoReturn collabW stC9 "คำตอบ").1.personaId = "practical" ∧
    (postRouteAcademicAutoReturn collabW stC9 "คำตอบ").1.context.autoReturnAfterAcademicDone
      = false ∧
    (postRouteAcademicAutoReturn collabW stC9 "คำตอบ").1.context.pendingSlot =
      some ⟨"topic", (composeMenuTopics collabW (autoReturnCleared stC9) menuSize).1,
        false⟩ ∧
    postRouteAcademicAutoReturn collabW stC9alt "คำตอบ" = (stC9alt, "คำตอบ", []) :=
  ⟨((c9_auto_return collabW stC9 "คำตอบ").1 (by decide)).2.1,
   ((c9_auto_return collabW stC9 "คำตอบ").1 (by decide)).2.2.1,
   ((c9_auto_return collabW stC9 "คำตอบ").1 (by decide)).2.2.2.1,
   (c9_auto_return collabW stC9alt "คำตอบ").2.1 (by decide)⟩

def stC1 : ConversationState :=
  { personaId := "practical",
    context := { didGreet := true } }

/-- C1: refuted by the code.  On a turn whose input is classified as a
greeting, with the topic pool not yet built, `handle` reaches the
greeting handler, whose menu composition builds the pool by issuing the
five broad document-search queries — so the number of retriever calls
is five, not zero.  (The other half of the claim does hold on this run:
the reply's numbered topic list has exactly five entries.) -/
theorem c1_greeting_issues_retrieval_queries :
    (classifyIntent collabW (turnStart (syncPersonaAndProfile stC1) "สวัสดีครับ")
        "สวัสดีครับ").1 = Intent.greeting ∧
    (handle collabW stC1 "สวัสดีครับ").2.2 = broadQueries ∧
    broadQueries.length = 5 ∧
    ((handle collabW stC1 "สวัสดีครับ").1.context.lastMenuTopics.getD []).length = 5 :=
  ⟨rfl, rfl, rfl, rfl⟩

/-! ## Append-only message history -/

/-- The earlier message list survives unaltered as a prefix of the
later one. -/
def MsgsExtend (old new : List Msg) : Prop := ∃ s, new = old ++ s

theorem msgsExtend_refl (m : List Msg) : MsgsExtend m m := ⟨[], by simp⟩

theorem msgsExtend_trans {a b c : List Msg}
    (h1 : MsgsExtend a b) (h2 : MsgsExtend b c) : MsgsExtend a c := by
  obtain ⟨s1, rfl⟩ := h1
  obtain ⟨s2, rfl⟩ := h2
  exact ⟨s1 ++ s2, by simp⟩

theorem msgsExtend_cast {a b : List Msg} (m : List Msg)
    (h : MsgsExtend a b) (hm : a = m) : MsgsExtend m b := hm ▸ h

theorem addUser_extends (st : ConversationState) (t : String) :
    MsgsExtend st.messages (addUser st t).messages := by
  unfold addUser
  repeat' split
  all_goals first
    | exact msgsExtend_refl _
    | exact ⟨[⟨"user", t⟩], rfl⟩

theorem addAssistant_extends (st : ConversationState) (t : String) :
    MsgsExtend st.messages (addAssistant st t).messages := by
  unfold addAssistant
  repeat' split
  all_goals first
    | exact msgsExtend_refl _
    | exact ⟨[⟨"assistant", t⟩], rfl⟩

theorem addUser_extends_of (st : ConversationState) (t : String) (m : List Msg)
    (h : st.messages = m) : MsgsExtend m (addUser st t).messages :=
  h ▸ addUser_extends st t

theorem addAssistant_extends_of (st : ConversationState) (t : String)
    (m : List Msg) (h : st.messages = m) :
    MsgsExtend m (addAssistant st t).messages :=
  h ▸ addAssistant_extends st t

theorem turnStart_extends (st : ConversationState) (u : String) :
    MsgsExtend st.messages (turnStart st u).messages := by
  simp only [turnStart]
  split
  · exact addUser_extends_of _ u st.messages (by split <;> rfl)
  · refine ⟨[], ?_⟩
    split <;> simp

theorem getTopicPool_messages (c : Collab) (s : ConversationState) :
    (getTopicPool c s).2.1.messages = s.messages := by
  unfold getTopicPool
  repeat' split
  all_goals rfl

theorem composeMenuTopics_messages (c : Collab) (s : ConversationState) (n : Nat) :
    (composeMenuTopics c s n).2.1.messages = s.messages := by
  show (getTopicPool c s).2.1.messages = s.messages
  exact getTopicPool_messages c s

theorem autoReturnApply_messages (c : Collab) (s : ConversationState) (r : String) :
    (autoReturnApply c s r).1.messages = s.messages := by
  show (getTopicPool c (autoReturnCleared s)).2.1.messages = s.messages
  rw [getTopicPool_messages]
  rfl

theorem postRoute_messages (c : Collab) (s : ConversationState) (r : String) :
    (postRouteAcademicAutoReturn c s r).1.messages = s.messages := by
  unfold postRouteAcademicAutoReturn
  split
  · exact autoReturnApply_messages c s r
  · rfl

theorem ensureLegal_messages (c : Collab) (s : ConversationState) (u : String) :
    (ensurePracticalRetrievalForLegal c s u).1.messages = s.messages := by
  simp only [ensurePracticalRetrievalForLegal]
  repeat' split
  all_goals rfl

theorem markAutoReturn_messages (s : ConversationState) (tgt : String) :
    (markAutoReturn s tgt).messages = s.messages := by
  simp only [markAutoReturn]
  split <;> rfl

theorem consumedSlot_messages (s : ConversationState) (p : PendingSlot)
    (v : String) : (consumedSlotState s p v).messages = s.messages := by
  simp only [consumedSlotState]
  split <;> rfl

theorem slotInvalidReply_extends (st : ConversationState) (e : String) :
    MsgsExtend st.messages (slotInvalidReply st e).1.messages := by
  simp only [slotInvalidReply]
  exact addAssistant_extends st _

theorem enterSwitch_extends (st : ConversationState) (tgt replay : String) :
    MsgsExtend st.messages (enterSwitchConfirmation st tgt replay).1.messages := by
  simp only [enterSwitchConfirmation]
  exact addAssistant_extends_of _ _ st.messages (by rw [markAutoReturn_messages])

theorem academicSlotDispatch_extends (c : Collab)
    (ha : ∀ s u b, MsgsExtend s.messages ((c.academic s u b).1).messages)
    (st : ConversationState) (v : String) :
    MsgsExtend st.messages (academicSlotDispatch c st v).1.messages := by
  simp only [academicSlotDispatch]
  refine msgsExtend_trans (ha st v false) ?_
  exact addAssistant_extends_of _ _ _ (postRoute_messages c _ _)

theorem practicalSlotDispatch_extends (c : Collab)
    (hp : ∀ s u, MsgsExtend s.messages ((c.practical s u).1).messages)
    (st : ConversationState) (v : String) :
    MsgsExtend st.messages (practicalSlotDispatch c st v).1.messages := by
  simp only [practicalSlotDispatch]
  refine msgsExtend_trans (hp st v) ?_
  exact addAssistant_extends_of _ _ _ rfl

theorem routePendingSlot_extends (c : Collab)
    (ha : ∀ s u b, MsgsExtend s.messages ((c.academic s u b).1).messages)
    (hp : ∀ s u, MsgsExtend s.messages ((c.practical s u).1).messages)
    (st : ConversationState) (u : String) :
    MsgsExtend st.messages (routePendingSlotToPersona c st u).1.messages := by
  simp only [routePendingSlotToPersona]
  split
  · exact slotInvalidReply_extends st _
  · split
    · exact slotInvalidReply_extends st _
    · split
      · exact slotInvalidReply_extends st _
      · split
        · exact (consumedSlot_messages st _ _) ▸
            academicSlotDispatch_extends c ha _ _
        · exact (consumedSlot_messages st _ _) ▸
            practicalSlotDispatch_extends c hp _ _

set_option maxHeartbeats 1600000 in
theorem handlePersonaPick_extends (st : ConversationState) (u : String) :
    MsgsExtend st.messages (handlePersonaPick st u).1.messages := by
  simp only [handlePersonaPick]
  split
  · exact addAssistant_extends st _
  · exact enterSwitch_extends _ _ _

theorem handleGreeting_extends (c : Collab) (st : ConversationState)
    (u : String) :
    MsgsExtend st.messages (handleGreeting c st u).1.messages := by
  simp only [handleGreeting]
  exact addAssistant_extends_of _ _ _ (composeMenuTopics_messages c st menuSize)

theorem switchReplayDispatch_extends (c : Collab)
    (ha : ∀ s u b, MsgsExtend s.messages ((c.academic s u b).1).messages)
    (hp : ∀ s u, MsgsExtend s.messages ((c.practical s u).1).messages)
    (st3 : ConversationState) (p r : String) (m : List Msg)
    (h : MsgsExtend m st3.messages) :
    MsgsExtend m (switchReplayDispatch c st3 p r).1.messages := by
  simp only [switchReplayDispatch]
  split
  · refine msgsExtend_trans h ?_
    refine msgsExtend_trans (ha st3 r false) ?_
    exact addAssistant_extends_of _ _ _ (postRoute_messages c _ _)
  · refine msgsExtend_trans h ?_
    refine msgsExtend_trans (hp st3 r) ?_
    exact addAssistant_extends_of _ _ _ rfl

set_option maxHeartbeats 1600000 in
theorem handlePersonaConfirmation_extends (c : Collab)
    (ha : ∀ s u b, MsgsExtend s.messages ((c.academic s u b).1).messages)
    (hp : ∀ s u, MsgsExtend s.messages ((c.practical s u).1).messages)
    (st : ConversationState) (u : String) :
    MsgsExtend st.messages (handlePersonaConfirmation c st u).1.messages := by
  simp only [handlePersonaConfirmation]
  split
  · exact addAssistant_extends_of _ _ st.messages rfl
  · split
    · split
      · exact switchReplayDispatch_extends c ha hp _ _ _ st.messages
          (addAssistant_extends_of _ _ st.messages rfl)
      · exact addAssistant_extends_of _ _ st.messages rfl
    · split
      · exact addAssistant_extends_of _ _ st.messages rfl
      · split
        · exact addAssistant_extends_of _ _ st.messages rfl
        · exact addAssistant_extends_of _ _ st.messages rfl

theorem academicLockDispatch_extends (c : Collab)
    (ha : ∀ s u b, MsgsExtend s.messages ((c.academic s u b).1).messages)
    (st : ConversationState) (u : String) :
    MsgsExtend st.messages (academicLockDispatch c st u).1.messages := by
  simp only [academicLockDispatch]
  refine msgsExtend_trans ?_
    (addAssistant_extends_of _ _ _ (postRoute_messages c _ _))
  exact ha _ u true

theorem academicRespond_extends (c : Collab)
    (ha : ∀ s u b, MsgsExtend s.messages ((c.academic s u b).1).messages)
    (st : ConversationState) (u : String) :
    MsgsExtend st.messages (academicRespond c st u).1.messages := by
  simp only [academicRespond]
  refine msgsExtend_trans ?_
    (addAssistant_extends_of _ _ _ (postRoute_messages c _ _))
  exact ha st u false

theorem practicalRespond_extends (c : Collab)
    (hp : ∀ s u, MsgsExtend s.messages ((c.practical s u).1).messages)
    (st : ConversationState) (u : String) (intent : Intent) :
    MsgsExtend st.messages (practicalRespond c st u intent).1.messages := by
  simp only [practicalRespond]
  refine msgsExtend_trans ?_ (addAssistant_extends_of _ _ _ rfl)
  refine msgsExtend_trans ?_ (hp _ u)
  refine ⟨[], ?_⟩
  rw [List.append_nil]
  split
  · exact ensureLegal_messages c st u
  · rfl

set_option maxHeartbeats 1600000 in
theorem handleClassified_extends (c : Collab)
    (ha : ∀ s u b, MsgsExtend s.messages ((c.academic s u b).1).messages)
    (hp : ∀ s u, MsgsExtend s.messages ((c.practical s u).1).messages)
    (st : ConversationState) (u : String) :
    MsgsExtend st.messages (handleClassified c st u).1.messages := by
  simp only [handleClassified]
  split
  · exact handlePersonaConfirmation_extends c ha hp st u
  · split
    · exact addAssistant_extends_of _ _ st.messages rfl
    · split
      · exact enterSwitch_extends _ _ _
      · split
        · exact enterSwitch_extends _ _ _
        · split
          · exact handlePersonaPick_extends st u
          · split
            · exact addAssistant_extends_of _ _ st.messages rfl
            · split
              · exact handleGreeting_extends c st u
              · split
                · exact handleGreeting_extends c st ""
                · split
                  · exact academicRespond_extends c ha st u
                  · exact practicalRespond_extends c hp st u _

set_option maxHeartbeats 1600000 in
theorem handle_extends (c : Collab)
    (ha : ∀ s u b, MsgsExtend s.messages ((c.academic s u b).1).messages)
    (hp : ∀ s u, MsgsExtend s.messages ((c.practical s u).1).messages)
    (st0 : ConversationState) (u : String) :
    MsgsExtend st0.messages ((handle c st0 u).1).messages := by
  rw [handle_eval]
  split
  · exact msgsExtend_cast st0.messages (handleGreeting_extends c _ "") rfl
  · split
    · refine msgsExtend_trans ?_ (academicLockDispatch_extends c ha _ u)
      exact msgsExtend_cast st0.messages (turnStart_extends _ u) rfl
    · split
      · refine msgsExtend_trans ?_ (routePendingSlot_extends c ha hp _ u)
        exact msgsExtend_cast st0.messages (turnStart_extends _ u) rfl
      · refine msgsExtend_trans ?_ (handleClassified_extends c ha hp _ u)
        exact msgsExtend_cast st0.messages (turnStart_extends _ u) rfl

theorem runTurns_extends (c : Collab)
    (ha : ∀ s u b, MsgsExtend s.messages ((c.academic s u b).1).messages)
    (hp : ∀ s u, MsgsExtend s.messages ((c.practical s u).1).messages) :
    ∀ (inputs : List String) (s : ConversationState),
      MsgsExtend s.messages (runTurns c s inputs).messages := by
  intro inputs
  induction inputs with
  | nil => intro s; exact msgsExtend_refl _
  | cons i rest ih =>
    intro s
    exact msgsExtend_trans (handle_extends c ha hp s i) (ih (handle c s i).1)

/-- C8: whenever the two persona-strategy collaborators only ever
append to the message history, every `handle` turn — and hence every
session of turns — leaves the previous message list intact as a prefix
of the new one (so its length is monotonically non-decreasing and no
previously appended message is altered); and a new entry equal in role
and content to the immediately preceding entry of the same role is not
appended again. -/
theorem c8_append_only (c : Collab)
    (ha : ∀ s u b, MsgsExtend s.messages ((c.academic s u b).1).messages)
    (hp : ∀ s u, MsgsExtend s.messages ((c.practical s u).1).messages) :
    (∀ st u, MsgsExtend st.messages ((handle c st u).1).messages) ∧
    (∀ st (pre post : List String), MsgsExtend (runTurns c st pre).messages
      (runTurns c st (pre ++ post)).messages) ∧
    (∀ st t, st.messages.getLast? = some ⟨"user", t⟩ → addUser st t = st) ∧
    (∀ st t, st.messages.getLast? = some ⟨"assistant", t⟩ →
      addAssistant st t = st) := by
  refine ⟨handle_extends c ha hp, ?_, ?_, ?_⟩
  · intro st pre post
    have hsplit : runTurns c st (pre ++ post) =
        runTurns c (runTurns c st pre) post := by
      simp [runTurns, List.foldl_append]
    rw [hsplit]
    exact runTurns_extends c ha hp post _
  · intro st t h
    unfold addUser
    split
    · rfl
    · rw [h]
      simp
  · intro st t h
    unfold addAssistant
    split
    · rfl
    · rw [h]
      simp

def stC8 : ConversationState :=
  { personaId := "practical",
    messages := [⟨"user", "x"⟩],
    context := { didGreet := true, topicPool := some fallbackBase } }

/-- Witness for `c8_append_only`: with message-appending collaborators,
one turn extends the history of a state that already has a message, a
two-turn session extends its one-turn prefix, and re-adding the last
user message is a no-op. -/
theorem c8_append_only_witness :
    MsgsExtend stC8.messages ((handle collabW stC8 "สวัสดีครับ").1).messages ∧
    MsgsExtend (runTurns collabW stC8 ["สวัสดีครับ"]).messages
      (runTurns collabW stC8 (["สวัสดีครับ"] ++ ["ขอบคุณครับ"])).messages ∧
    addUser stC8 "x" = stC8 :=
  ⟨(c8_append_only collabW (fun s _ _ => msgsExtend_refl s.messages)
      (fun s _ => msgsExtend_refl s.messages)).1 stC8 "สวัสดีครับ",
   (c8_append_only collabW (fun s _ _ => msgsExtend_refl s.messages)
      (fun s _ => msgsExtend_refl s.messages)).2.1 stC8 ["สวัสดีครับ"] ["ขอบคุณครับ"],
   (c8_append_only collabW (fun s _ _ => msgsExtend_refl s.messages)
      (fun s _ => msgsExtend_refl s.messages)).2.2.1 stC8 "x" rfl⟩

end RestbizSup
